import Mathlib

/-!
Verification development for the sfxr-rs sound-effect synthesizer.

Shallow embedding conventions:
* `f32`/`f64` arithmetic is embedded as exact rational (`ℚ`) arithmetic; the
  clamp/branch/index structure of the code is preserved literally.
* `sin` is not algebraic over `ℚ`, so every definition that needs it takes an
  explicit function parameter `rsin : ℚ → ℚ`; theorems hold for every `rsin`.
* The pseudo-random generators (`rand::weak_rng()` in `src/lib.rs`) are
  embedded as explicit value streams `rng : ℕ → ℚ` together with a cursor; a
  fresh stream corresponds to a freshly created (seeded) generator.
* Rust numeric casts (`as i32`, `as u32`, `as usize` on floats) truncate
  toward zero, with `as u32`/`as usize` saturating negative values to zero;
  `ratTrunc` and `ratToUnsigned` model this.
* Sequential field mutations of a Rust `&mut self` block are written as a
  functional record update whose fields are computed by `let`-chains in source
  order; fields a block does not mention are left untouched by the update.
* Array indexing is embedded with `List.getD`/`List.set`; the index
  expressions are kept as named definitions so that their bounds can be
  stated and proved separately.

The embedding covers both implementations present in the repository:
the monolithic `Generator` of `src/lib.rs` (the only code reachable from
`Generator::generate`), and the standalone components of `src/generator.rs`
(`Phaser`, `HighLowPassFilter`), which are embedded under the names
`GPhaser` and `GHighLowPassFilter`.
-/

set_option maxRecDepth 8000

namespace Sfxr

/-- Truncation toward zero of a rational number: the behaviour of Rust
`as i32` (and C `(int)`) casts on in-range values. -/
def ratTrunc (q : ℚ) : ℤ := if 0 ≤ q then ⌊q⌋ else -⌊-q⌋

/-- Rust `as u32` / `as usize` casts on floats: truncate toward zero and
saturate negative values at zero. -/
def ratToUnsigned (q : ℚ) : ℕ := (ratTrunc q).toNat

/-- The constant `PI: f32 = 3.14159265359` of src/lib.rs. -/
def PI : ℚ := 314159265359 / 100000000000

/-- The `WaveType` enum (identical in src/lib.rs and src/generator.rs). -/
inductive WaveType where
  | square
  | triangle
  | sine
  | noise
deriving DecidableEq

/-- The `Sample` parameter struct of src/lib.rs. -/
structure Sample where
  wave_type : WaveType
  base_freq : ℚ
  freq_limit : ℚ
  freq_ramp : ℚ
  freq_dramp : ℚ
  duty : ℚ
  duty_ramp : ℚ
  vib_strength : ℚ
  vib_speed : ℚ
  vib_delay : ℚ
  env_attack : ℚ
  env_sustain : ℚ
  env_decay : ℚ
  env_punch : ℚ
  lpf_resonance : ℚ
  lpf_freq : ℚ
  lpf_ramp : ℚ
  hpf_freq : ℚ
  hpf_ramp : ℚ
  pha_offset : ℚ
  pha_ramp : ℚ
  repeat_speed : ℚ
  arp_speed : ℚ
  arp_mod : ℚ

namespace Sample

/-- `Sample::new()` of src/lib.rs. -/
def new : Sample where
  wave_type := WaveType.square
  base_freq := 3/10
  freq_limit := 0
  freq_ramp := 0
  freq_dramp := 0
  duty := 0
  duty_ramp := 0
  vib_strength := 0
  vib_speed := 0
  vib_delay := 0
  env_attack := 4/10
  env_sustain := 1/10
  env_decay := 5/10
  env_punch := 0
  lpf_resonance := 0
  lpf_freq := 1
  lpf_ramp := 0
  hpf_freq := 0
  hpf_ramp := 0
  pha_offset := 0
  pha_ramp := 0
  repeat_speed := 0
  arp_speed := 0
  arp_mod := 0

/-- The conjunction of range assertions of `Sample::assert_valid` in src/lib.rs. -/
def valid (s : Sample) : Prop :=
  0 ≤ s.base_freq ∧ s.base_freq ≤ 1 ∧
  0 ≤ s.freq_limit ∧ s.freq_limit ≤ 1 ∧
  -1 ≤ s.freq_ramp ∧ s.freq_ramp ≤ 1 ∧
  0 ≤ s.freq_dramp ∧ s.freq_dramp ≤ 1 ∧
  0 ≤ s.duty ∧ s.duty ≤ 1 ∧
  -1 ≤ s.duty_ramp ∧ s.duty_ramp ≤ 1 ∧
  0 ≤ s.vib_strength ∧ s.vib_strength ≤ 1 ∧
  0 ≤ s.vib_speed ∧ s.vib_speed ≤ 1 ∧
  0 ≤ s.vib_delay ∧ s.vib_delay ≤ 1 ∧
  0 ≤ s.env_attack ∧ s.env_attack ≤ 1 ∧
  0 ≤ s.env_sustain ∧ s.env_sustain ≤ 1 ∧
  0 ≤ s.env_decay ∧ s.env_decay ≤ 1 ∧
  -1 ≤ s.env_punch ∧ s.env_punch ≤ 1 ∧
  0 ≤ s.lpf_resonance ∧ s.lpf_resonance ≤ 1 ∧
  0 ≤ s.lpf_freq ∧ s.lpf_freq ≤ 1 ∧
  -1 ≤ s.lpf_ramp ∧ s.lpf_ramp ≤ 1 ∧
  0 ≤ s.hpf_freq ∧ s.hpf_freq ≤ 1 ∧
  -1 ≤ s.hpf_ramp ∧ s.hpf_ramp ≤ 1 ∧
  -1 ≤ s.pha_offset ∧ s.pha_offset ≤ 1 ∧
  -1 ≤ s.pha_ramp ∧ s.pha_ramp ≤ 1 ∧
  0 ≤ s.repeat_speed ∧ s.repeat_speed ≤ 1 ∧
  0 ≤ s.arp_speed ∧ s.arp_speed ≤ 1 ∧
  -1 ≤ s.arp_mod ∧ s.arp_mod ≤ 1

instance (s : Sample) : Decidable s.valid := by
  unfold valid
  infer_instance

end Sample

/-- The `EnvelopeStage` enum (identical in src/lib.rs and src/generator.rs). -/
inductive EnvelopeStage where
  | attack
  | sustain
  | decay
  | last
deriving DecidableEq

/-- The `Envelope` struct of src/lib.rs (`End` stage is called `last` here
because `end` is a Lean keyword). -/
structure Envelope where
  stage : EnvelopeStage
  stage_left : ℕ
  attack : ℕ
  sustain : ℕ
  decay : ℕ
  punch : ℚ
deriving DecidableEq

namespace Envelope

/-- `Envelope::new()` of src/lib.rs. -/
def new : Envelope where
  stage := EnvelopeStage.attack
  stage_left := 0
  attack := 0
  sustain := 0
  decay := 0
  punch := 0

/-- `Envelope::current_stage_length` of src/lib.rs. -/
def current_stage_length (e : Envelope) : ℕ :=
  match e.stage with
  | EnvelopeStage.attack => e.attack
  | EnvelopeStage.sustain => e.sustain
  | EnvelopeStage.decay => e.decay
  | EnvelopeStage.last => 0

/-- `Envelope::reset` of src/lib.rs (the lengths arrive precomputed from
`Generator::reset`). -/
def reset (e : Envelope) (attack sustain decay : ℕ) (punch : ℚ) : Envelope :=
  let e' : Envelope :=
    { e with
      attack := attack
      sustain := sustain
      decay := decay
      punch := punch
      stage := EnvelopeStage.attack }
  { e' with stage_left := e'.current_stage_length }

/-- `Envelope::advance` of src/lib.rs. -/
def advance (e : Envelope) : Envelope :=
  if e.stage_left > 1 then
    { e with stage_left := e.stage_left - 1 }
  else
    let e' : Envelope :=
      { e with
        stage :=
          match e.stage with
          | EnvelopeStage.attack => EnvelopeStage.sustain
          | EnvelopeStage.sustain => EnvelopeStage.decay
          | EnvelopeStage.decay => EnvelopeStage.last
          | EnvelopeStage.last => EnvelopeStage.last }
    { e' with stage_left := e'.current_stage_length }

/-- `Envelope::volume` of src/lib.rs. The source computes
`dt = stage_left as f32 / current_stage_length as f32` unconditionally; when
the stage length is zero this is an IEEE division by zero (NaN), while in `ℚ`
division by zero yields zero. `volumeDivisorIsZero` below records exactly
when the zero-denominator division happens. -/
def volume (e : Envelope) : ℚ :=
  let dt : ℚ := (e.stage_left : ℚ) / (e.current_stage_length : ℚ)
  match e.stage with
  | EnvelopeStage.attack => 1 - dt
  | EnvelopeStage.sustain => 1 + dt * 2 * e.punch
  | EnvelopeStage.decay => dt
  | EnvelopeStage.last => 0

/-- Whether the division inside `Envelope::volume` has a zero denominator. -/
def volumeDivisorIsZero (e : Envelope) : Prop :=
  e.current_stage_length = 0

instance (e : Envelope) : Decidable e.volumeDivisorIsZero := by
  unfold volumeDivisorIsZero
  infer_instance

end Envelope

/-- The length of the phaser delay buffer `[f32; 1024]`
(`self.buffer.len()` in the source). -/
def phaserBufferLen : ℕ := 1024

/-- The `Phaser` struct of src/lib.rs: write pointer and 1024-entry delay
buffer. The fixed-size array is embedded as a total function from indices to
values. -/
structure Phaser where
  ipp : ℕ
  buffer : ℕ → ℚ

namespace Phaser

/-- `Phaser::new()` of src/lib.rs: zero-filled buffer. -/
def new : Phaser where
  ipp := 0
  buffer := fun _ => 0

/-- The index written by `Phaser::phase` (`self.ipp % p_len`). -/
def writeIndex (p : Phaser) : ℕ := p.ipp % phaserBufferLen

/-- The delay amount `iphase = (fphase.abs() as i32).min(p_len as i32 - 1)`
of `Phaser::phase`. -/
def iphase (fphase : ℚ) : ℤ :=
  min (ratTrunc |fphase|) ((phaserBufferLen : ℤ) - 1)

/-- The index read by `Phaser::phase`
(`(self.ipp + p_len - iphase as usize) % p_len`). -/
def readIndex (p : Phaser) (fphase : ℚ) : ℕ :=
  (p.ipp + phaserBufferLen - (iphase fphase).toNat) % phaserBufferLen

/-- `Phaser::phase` of src/lib.rs: write the sample, read the delayed sample
(after the write, so a zero delay reads the sample just written), advance the
write pointer. -/
def phase (p : Phaser) (fphase sample : ℚ) : Phaser × ℚ :=
  let w := p.writeIndex
  let buffer' : ℕ → ℚ := fun j => if j = w then sample else p.buffer j
  let result := sample + buffer' (p.readIndex fphase)
  ({ ipp := (p.ipp + 1) % phaserBufferLen, buffer := buffer' }, result)

end Phaser

/-- The `Phaser` struct of src/generator.rs (which owns its `fphase` and
`fdphase`, unlike the one in src/lib.rs). -/
structure GPhaser where
  ipp : ℕ
  fphase : ℚ
  fdphase : ℚ
  buffer : ℕ → ℚ

namespace GPhaser

/-- `Phaser::new()` of src/generator.rs. -/
def new : GPhaser where
  ipp := 0
  fphase := 0
  fdphase := 0
  buffer := fun _ => 0

/-- `Phaser::reset` of src/generator.rs: this version really assigns
`fphase = pha_offset.powi(2) * 1020.0` (compare `Generator::reset` in
src/lib.rs, where the corresponding line is a comparison, not an
assignment). -/
def reset (p : GPhaser) (pha_offset pha_ramp : ℚ) : GPhaser :=
  let fphase0 := pha_offset ^ 2 * 1020
  let fphase1 := if pha_offset < 0 then -fphase0 else fphase0
  let fdphase0 := pha_ramp ^ 2 * 1
  let fdphase1 := if pha_ramp < 0 then -fdphase0 else fdphase0
  { p with fphase := fphase1, fdphase := fdphase1 }

end GPhaser

/-- The `HighLowPassFilter` struct of src/generator.rs. -/
structure GHighLowPassFilter where
  fltp : ℚ
  fltdp : ℚ
  fltw : ℚ
  fltw_d : ℚ
  fltdmp : ℚ
  fltphp : ℚ
  flthp : ℚ
  flthp_d : ℚ
deriving DecidableEq

namespace GHighLowPassFilter

/-- `HighLowPassFilter::new()` of src/generator.rs. -/
def new : GHighLowPassFilter where
  fltp := 0
  fltdp := 0
  fltw := 0
  fltw_d := 0
  fltdmp := 0
  fltphp := 0
  flthp := 0
  flthp_d := 0

/-- `HighLowPassFilter::filter` of src/generator.rs. This version branches
on `fltw > 0.0` (the inlined filter of `Generator::generate` in src/lib.rs
instead branches on `sample.lpf_freq < 1.0`), clamps `fltw` inside the
integrate branch only, and clamps `flthp` unconditionally. -/
def filter (f : GHighLowPassFilter) (sample : ℚ) : GHighLowPassFilter × ℚ :=
  let pp := f.fltp
  let integrate : Prop := f.fltw > 0
  let fltw' := if integrate then max (min (f.fltw * f.fltw_d) (1/10)) 0 else f.fltw
  let fltdp' :=
    if integrate then
      let dp := f.fltdp + (sample - f.fltp) * fltw'
      dp - dp * f.fltdmp
    else 0
  let fltpBase := if integrate then f.fltp else sample
  let fltp' := fltpBase + fltdp'
  let flthp' := max (min (f.flthp * f.flthp_d) (1/10)) (1/100000)
  let fltphp0 := f.fltphp + (fltp' - pp)
  let fltphp' := fltphp0 - fltphp0 * flthp'
  ({ f with
      fltp := fltp'
      fltdp := fltdp'
      fltw := fltw'
      flthp := flthp'
      fltphp := fltphp' },
    fltphp')

end GHighLowPassFilter

/-- The `Generator` struct of src/lib.rs. -/
structure Generator where
  sample : Sample
  volume : ℚ
  playing_sample : Bool
  phase : ℤ
  fperiod : ℚ
  fmaxperiod : ℚ
  fslide : ℚ
  fdslide : ℚ
  square_duty : ℚ
  square_slide : ℚ
  envelope : Envelope
  env_vol : ℚ
  fphase : ℚ
  fdphase : ℚ
  phaser : Phaser
  noise_buffer : List ℚ
  fltp : ℚ
  fltdp : ℚ
  fltw : ℚ
  fltw_d : ℚ
  fltdmp : ℚ
  fltphp : ℚ
  flthp : ℚ
  flthp_d : ℚ
  vib_phase : ℚ
  vib_speed : ℚ
  vib_amp : ℚ
  rep_time : ℤ
  rep_limit : ℤ
  arp_time : ℤ
  arp_limit : ℤ
  arp_mod : ℚ

namespace Generator

/-- `Generator::reset` of src/lib.rs. `rng` stands for the `rand::weak_rng()`
instance the source creates internally to reseed the noise table (used only
when `restart` is false). Each field holds the value the source leaves in it:
fields written only inside the source's `if !restart` block keep their old
value when `restart` is true.

The source's line 552 reads `self.fphase == self.sample.pha_offset.powi(2)
* 1020.0;` with `==` (a comparison, not an assignment), so a full reset does
NOT store `pha_offset^2 * 1020` into `fphase`; only the sign flip on the
following lines is applied to the previous value of `fphase`. The embedding
reproduces this faithfully. -/
def reset (g : Generator) (restart : Bool) (rng : ℕ → ℚ) : Generator :=
  let s := g.sample
  let fltwNew := s.lpf_freq ^ 3 * (1/10)
  let fltdmp0 := 5 / (1 + s.lpf_resonance ^ 2 * 20) * (1/100 + fltwNew)
  let fltdmpNew := if fltdmp0 > 4/5 then 4/5 else fltdmp0
  let attackNew := ratToUnsigned (s.env_attack ^ 2 * 100000)
  let sustainNew := ratToUnsigned (s.env_sustain ^ 2 * 100000)
  let decayNew := ratToUnsigned (s.env_decay ^ 2 * 100000)
  let fdphase0 := s.pha_ramp ^ 2 * 1
  { g with
    phase := if restart then g.phase else 0
    fperiod := 100 / (s.base_freq ^ 2 + 1/1000)
    fmaxperiod := 100 / (s.freq_limit ^ 2 + 1/1000)
    fslide := 1 - s.freq_ramp ^ 3 * (1/100)
    fdslide := -(s.freq_dramp ^ 3 * (1/1000000))
    square_duty := 1/2 - s.duty * (1/2)
    square_slide := -(s.duty_ramp * (5/100000))
    arp_mod :=
      if s.arp_mod ≥ 0 then 1 - s.arp_mod ^ 2 * (9/10)
      else 1 - s.arp_mod ^ 2 * 10
    arp_time := 0
    arp_limit :=
      if s.arp_speed = 1 then 0
      else ratTrunc ((1 - s.arp_speed) ^ 2 * 20000 + 32)
    fltp := if restart then g.fltp else 0
    fltdp := if restart then g.fltdp else 0
    fltw := if restart then g.fltw else fltwNew
    fltw_d := if restart then g.fltw_d else 1 + s.lpf_ramp * (1/10000)
    fltdmp := if restart then g.fltdmp else fltdmpNew
    fltphp := if restart then g.fltphp else 0
    flthp := if restart then g.flthp else s.hpf_freq ^ 2 * (1/10)
    flthp_d := if restart then g.flthp_d else 1 + s.hpf_ramp * (3/10000)
    vib_phase := if restart then g.vib_phase else 0
    vib_speed := if restart then g.vib_speed else s.vib_speed ^ 2 * (1/100)
    vib_amp := if restart then g.vib_amp else s.vib_strength * (1/2)
    env_vol := if restart then g.env_vol else 0
    envelope :=
      if restart then g.envelope
      else g.envelope.reset attackNew sustainNew decayNew s.env_punch
    fphase :=
      if restart then g.fphase
      else if s.pha_offset < 0 then -g.fphase else g.fphase
    fdphase :=
      if restart then g.fdphase
      else if s.pha_ramp < 0 then -fdphase0 else fdphase0
    phaser := if restart then g.phaser else Phaser.new
    noise_buffer :=
      if restart then g.noise_buffer
      else (List.range 32).map fun i => rng i * 2 - 1
    rep_time := if restart then g.rep_time else 0
    rep_limit :=
      if restart then g.rep_limit
      else if s.repeat_speed = 0 then 0
      else ratTrunc ((1 - s.repeat_speed) ^ 2 * 20000 * 32) }

/-- `Generator::new` of src/lib.rs: build the literal initial state, then
perform a full reset (`rng` models the `weak_rng()` the reset creates). -/
def new (s : Sample) (rng : ℕ → ℚ) : Generator :=
  let g : Generator :=
    { sample := s
      volume := 1/5
      playing_sample := true
      phase := 0
      fperiod := 0
      fmaxperiod := 0
      fslide := 0
      fdslide := 0
      square_duty := 0
      square_slide := 0
      envelope := Envelope.new
      env_vol := 0
      fphase := 0
      fdphase := 0
      phaser := Phaser.new
      noise_buffer := List.replicate 32 0
      fltp := 0
      fltdp := 0
      fltw := 0
      fltw_d := 0
      fltdmp := 0
      fltphp := 0
      flthp := 0
      flthp_d := 0
      vib_phase := 0
      vib_speed := 0
      vib_amp := 0
      rep_time := 0
      rep_limit := 0
      arp_time := 0
      arp_limit := 0
      arp_mod := 0 }
  g.reset false rng

/-- The repeat step at the top of the per-frame loop of
`Generator::generate`: increment `rep_time`; when the repeat limit is armed
and reached, zero `rep_time` and perform a partial reset (`reset(true)`,
which reads no randomness). -/
def repStep (g : Generator) : Generator :=
  let g1 : Generator := { g with rep_time := g.rep_time + 1 }
  if g1.rep_limit ≠ 0 ∧ g1.rep_time ≥ g1.rep_limit then
    ({ g1 with rep_time := 0 }).reset true (fun _ => 0)
  else g1

/-- The arpeggio trigger condition of `Generator::generate`, phrased on the
state before `arp_time` is incremented. -/
def arpFireCond (g : Generator) : Prop :=
  g.arp_limit ≠ 0 ∧ g.arp_time + 1 ≥ g.arp_limit

instance (g : Generator) : Decidable g.arpFireCond := by
  unfold arpFireCond
  infer_instance

/-- The arpeggio step of `Generator::generate`: increment `arp_time`; when
the limit is armed and reached, disarm it and multiply `fperiod` by
`arp_mod`. -/
def arpStep (g : Generator) : Generator :=
  let g1 : Generator := { g with arp_time := g.arp_time + 1 }
  if g1.arp_limit ≠ 0 ∧ g1.arp_time ≥ g1.arp_limit then
    { g1 with arp_limit := 0, fperiod := g1.fperiod * g1.arp_mod }
  else g1

end Generator

/-- The noise-table index `(fp * 32.0) as usize` used by the oscillator. -/
def noiseIndex (fp : ℚ) : ℕ := ratToUnsigned (fp * 32)

namespace Generator

/-- The inlined low-pass/high-pass filter block of `Generator::generate`
(src/lib.rs lines 371-416). Unlike `HighLowPassFilter::filter` of
src/generator.rs, this branches on `self.sample.lpf_freq < 1.0`, clamps
`fltw` before the branch, and does not touch `flthp` (which
`Generator::generate` updates once per frame, outside the supersample
loop). -/
def filterStep (g : Generator) (sample : ℚ) : Generator × ℚ :=
  let pp := g.fltp
  let fltw' := max (min (g.fltw * g.fltw_d) (1/10)) 0
  let fltdp' :=
    if g.sample.lpf_freq < 1 then
      let dp := g.fltdp + (sample - g.fltp) * fltw'
      dp - dp * g.fltdmp
    else 0
  let fltpBase := if g.sample.lpf_freq < 1 then g.fltp else sample
  let fltp' := fltpBase + fltdp'
  let fltphp0 := g.fltphp + (fltp' - pp)
  let fltphp' := fltphp0 - fltphp0 * g.flthp
  ({ g with fltp := fltp', fltdp := fltdp', fltw := fltw', fltphp := fltphp' },
    fltphp')

/-- One supersample of the loop body of `Generator::generate`: advance and
wrap the oscillator phase (regenerating the noise table on wrap for the
noise wave), produce the raw waveform sample, apply the inlined filter, then
the phaser. Returns the new state plus the phaser output; the caller
multiplies by `env_vol` and accumulates. The `ℕ` component is the cursor
into the `rng` stream of the surrounding `generate` call. -/
def superCore (rsin : ℚ → ℚ) (rng : ℕ → ℚ) (period : ℤ)
    (st : Generator × ℕ) : (Generator × ℕ) × ℚ :=
  let g := st.1
  let phase1 := g.phase + 1
  let wrapped : ℤ × List ℚ × ℕ :=
    if phase1 ≥ period then
      if g.sample.wave_type = WaveType.noise then
        (Int.tmod phase1 period,
          (List.range 32).map (fun i => rng (st.2 + i) * 2 - 1),
          st.2 + 32)
      else (Int.tmod phase1 period, g.noise_buffer, st.2)
    else (phase1, g.noise_buffer, st.2)
  let phase2 := wrapped.1
  let nb := wrapped.2.1
  let cursor := wrapped.2.2
  let fp : ℚ := (phase2 : ℚ) / (period : ℚ)
  let raw : ℚ :=
    match g.sample.wave_type with
    | WaveType.square => if fp < g.square_duty then 1/2 else -(1/2)
    | WaveType.triangle => 1 - fp * 2
    | WaveType.sine => rsin (fp * 2 * PI)
    | WaveType.noise => nb.getD (noiseIndex fp) 0
  let g1 : Generator := { g with phase := phase2, noise_buffer := nb }
  let fr := g1.filterStep raw
  let pr := fr.1.phaser.phase fr.1.fphase fr.2
  (({ fr.1 with phaser := pr.1 }, cursor), pr.2)

/-- One full iteration of the 8x supersampling loop, including the final
`ssample += sample * self.env_vol` accumulation. -/
def superStep (rsin : ℚ → ℚ) (rng : ℕ → ℚ) (period : ℤ)
    (st : (Generator × ℕ) × ℚ) : (Generator × ℕ) × ℚ :=
  let r := superCore rsin rng period st.1
  (r.1, st.2 + r.2 * r.1.1.env_vol)

/-- The `for _ in 0..8` supersampling loop of `Generator::generate`,
parameterised by the iteration count. -/
def ssLoop (rsin : ℚ → ℚ) (rng : ℕ → ℚ) (period : ℤ) :
    ℕ → (Generator × ℕ) × ℚ → (Generator × ℕ) × ℚ
  | 0, st => st
  | n + 1, st => ssLoop rsin rng period n (superStep rsin rng period st)

/-- The per-frame modulator updates at the top of the per-output-sample
closure of `Generator::generate`: repeat step, arpeggio step, frequency
slide, vibrato and period derivation, duty slide, envelope advance, phaser
phase advance, high-pass coefficient ramp. Returns the updated state and
the oscillator period for this frame. -/
def frameAdvance (rsin : ℚ → ℚ) (g : Generator) : Generator × ℤ :=
  let g0 := g.repStep
  let g1 := g0.arpStep
  let g2 : Generator := { g1 with fslide := g1.fslide + g1.fdslide }
  let g3 : Generator :=
    { g2 with fperiod := min (g2.fperiod * g2.fslide) g2.fmaxperiod }
  let g4 : Generator := { g3 with vib_phase := g3.vib_phase + g3.vib_speed }
  let vibrato := 1 + rsin g4.vib_phase * g4.vib_amp
  let period : ℤ := max (ratTrunc (vibrato * g4.fperiod)) 8
  let g5 : Generator :=
    { g4 with
      square_duty := max (min (g4.square_duty + g4.square_slide) (1/2)) 0 }
  let g6 : Generator := { g5 with envelope := g5.envelope.advance }
  let g7 : Generator := { g6 with env_vol := g6.envelope.volume }
  let g8 : Generator := { g7 with fphase := g7.fphase + g7.fdphase }
  let g9 : Generator :=
    { g8 with
      flthp :=
        if g8.flthp_d ≠ 0 then max (min (g8.flthp * g8.flthp_d) (1/10)) (1/100000)
        else g8.flthp }
  (g9, period)

/-- The body of the per-output-sample closure of `Generator::generate`
(assuming `playing_sample` was found true): the per-frame modulator updates
of `frameAdvance`, then the 8x supersampling loop, and finally scaling by
`volume / 8` and clamping to [-1, 1]. Returns the new (state, rng cursor)
and the value stored into the buffer slot. -/
def generateFrame (rsin : ℚ → ℚ) (rng : ℕ → ℚ)
    (gc : Generator × ℕ) : (Generator × ℕ) × ℚ :=
  let a := frameAdvance rsin gc.1
  let r := ssLoop rsin rng a.2 8 ((a.1, gc.2), 0)
  (r.1, max (min (r.2 * r.1.1.volume / 8) 1) (-1))

/-- The list of the 8 supersample values as produced by the
filter-then-phaser chain of `superCore` (before the envelope multiplier is
applied), starting from a given oscillator state. -/
def superOuts (rsin : ℚ → ℚ) (rng : ℕ → ℚ) (period : ℤ) :
    ℕ → Generator × ℕ → List ℚ
  | 0, _ => []
  | n + 1, st =>
    (superCore rsin rng period st).2 ::
      superOuts rsin rng period n (superCore rsin rng period st).1

/-- State evolution of one buffer slot of `Generator::generate`: the closure
returns immediately when `playing_sample` is false. -/
def frameStep (rsin : ℚ → ℚ) (rng : ℕ → ℚ) (gc : Generator × ℕ) :
    Generator × ℕ :=
  if gc.1.playing_sample then (generateFrame rsin rng gc).1 else gc

/-- `Generator::generate` over an explicit buffer: each slot is overwritten
with the frame value while `playing_sample` holds, and left at its previous
value otherwise (the closure returns early without assigning). -/
def generateSlots (rsin : ℚ → ℚ) (rng : ℕ → ℚ) :
    Generator × ℕ → List ℚ → (Generator × ℕ) × List ℚ
  | gc, [] => (gc, [])
  | gc, v :: rest =>
    if gc.1.playing_sample then
      let r := generateFrame rsin rng gc
      let r2 := generateSlots rsin rng r.1 rest
      (r2.1, r.2 :: r2.2)
    else
      let r2 := generateSlots rsin rng gc rest
      (r2.1, v :: r2.2)

/-- `Generator::generate` of src/lib.rs: a fresh `weak_rng()` (here, the
stream `rng` with cursor 0) is created per call. -/
def generate (rsin : ℚ → ℚ) (rng : ℕ → ℚ) (g : Generator)
    (buffer : List ℚ) : Generator × List ℚ :=
  let r := generateSlots rsin rng (g, 0) buffer
  (r.1.1, r.2)

/-- A sequence of `generate` calls; call number `i` draws its noise values
from the stream `rngs i`, mirroring the fresh `weak_rng()` per call. -/
def runCalls (rsin : ℚ → ℚ) (rngs : ℕ → ℕ → ℚ) :
    Generator → ℕ → List (List ℚ) → Generator × List (List ℚ)
  | g, _, [] => (g, [])
  | g, i, b :: bs =>
    let r := g.generate rsin (rngs i) b
    let r2 := runCalls rsin rngs r.1 (i + 1) bs
    (r2.1, r.2 :: r2.2)

/-- The repeat-restart trigger condition of `Generator::generate`, phrased
on the state before `rep_time` is incremented. -/
def repFireCond (g : Generator) : Prop :=
  g.rep_limit ≠ 0 ∧ g.rep_time + 1 ≥ g.rep_limit

instance (g : Generator) : Decidable g.repFireCond := by
  unfold repFireCond
  infer_instance

/-- Whether a repeat-triggered restart fires during the frame computed from
state `g`. -/
def repFired (g : Generator) : Bool :=
  g.playing_sample && decide g.repFireCond

/-- Number of frames, among the next `n`, in which a repeat-triggered
restart fires; a window with count 0 is a run "between resets/restarts". -/
def repFireCount (rsin : ℚ → ℚ) (rng : ℕ → ℚ) :
    Generator × ℕ → ℕ → ℕ
  | _, 0 => 0
  | gc, n + 1 =>
    (if gc.1.repFired then 1 else 0) +
      repFireCount rsin rng (frameStep rsin rng gc) n

/-- Whether the arpeggio one-shot fires during the frame computed from state
`g` (the condition is evaluated after the repeat step, which may have
re-armed the limit via a restart). -/
def arpFired (g : Generator) : Bool :=
  g.playing_sample && decide g.repStep.arpFireCond

/-- Number of frames, among the next `n`, in which the arpeggio one-shot
fires. -/
def arpFireCount (rsin : ℚ → ℚ) (rng : ℕ → ℚ) :
    Generator × ℕ → ℕ → ℕ
  | _, 0 => 0
  | gc, n + 1 =>
    (if gc.1.arpFired then 1 else 0) +
      arpFireCount rsin rng (frameStep rsin rng gc) n

end Generator

/-- The spec's supersample pipeline (section 4.5 step 3): the raw oscillator
sample is first multiplied by `Envelope.volume()`, then passed through the
filter, then through the phaser. This follows the spec's words; the source
(`Generator::generate`, src/lib.rs) instead multiplies by `env_vol` after the
phaser. Oscillator-phase handling is as in `Generator.superCore`. -/
def Generator.superCoreSpecC3 (rsin : ℚ → ℚ) (rng : ℕ → ℚ) (period : ℤ)
    (st : Generator × ℕ) : (Generator × ℕ) × ℚ :=
  let g := st.1
  let phase1 := g.phase + 1
  let wrapped : ℤ × List ℚ × ℕ :=
    if phase1 ≥ period then
      if g.sample.wave_type = WaveType.noise then
        (Int.tmod phase1 period,
          (List.range 32).map (fun i => rng (st.2 + i) * 2 - 1),
          st.2 + 32)
      else (Int.tmod phase1 period, g.noise_buffer, st.2)
    else (phase1, g.noise_buffer, st.2)
  let phase2 := wrapped.1
  let nb := wrapped.2.1
  let cursor := wrapped.2.2
  let fp : ℚ := (phase2 : ℚ) / (period : ℚ)
  let raw : ℚ :=
    match g.sample.wave_type with
    | WaveType.square => if fp < g.square_duty then 1/2 else -(1/2)
    | WaveType.triangle => 1 - fp * 2
    | WaveType.sine => rsin (fp * 2 * PI)
    | WaveType.noise => nb.getD (noiseIndex fp) 0
  let g1 : Generator := { g with phase := phase2, noise_buffer := nb }
  let fr := g1.filterStep (raw * g1.env_vol)
  let pr := fr.1.phaser.phase fr.1.fphase fr.2
  (({ fr.1 with phaser := pr.1 }, cursor), pr.2)

/-- Iterated spec pipeline: sums the 8 results (no envelope factor at
accumulation time, since the spec applies the envelope first). -/
def Generator.ssLoopSpecC3 (rsin : ℚ → ℚ) (rng : ℕ → ℚ) (period : ℤ) :
    ℕ → (Generator × ℕ) × ℚ → (Generator × ℕ) × ℚ
  | 0, st => st
  | n + 1, st =>
    Generator.ssLoopSpecC3 rsin rng period n
      (let r := Generator.superCoreSpecC3 rsin rng period st.1
       (r.1, st.2 + r.2))

/-- One output frame computed as the spec describes it (sections 4.5 steps
1-4): identical per-frame modulator updates, but each of the 8 supersamples
runs envelope-multiply first, then filter, then phaser, and the 8 results
are summed and divided by 8 (then scaled by `volume` and clamped, as in
step 4). -/
def Generator.generateFrameSpecC3 (rsin : ℚ → ℚ) (rng : ℕ → ℚ)
    (gc : Generator × ℕ) : (Generator × ℕ) × ℚ :=
  let a := Generator.frameAdvance rsin gc.1
  let r := Generator.ssLoopSpecC3 rsin rng a.2 8 ((a.1, gc.2), 0)
  (r.1, max (min (r.2 * r.1.1.volume / 8) 1) (-1))

/-- The per-sample filter step as the spec describes it (section 4.3 steps
1-2, the wording of claim C6): clamp `fltw`, then branch on `fltw > 0`
(integrate with damped spring dynamics) versus `fltw ≤ 0` (snap `fltp` to
the input and zero `fltdp`); high-pass stage as in the source. This follows
the spec's words; the inlined filter of `Generator::generate` in src/lib.rs
branches on `sample.lpf_freq < 1.0` instead. -/
def Generator.filterStepSpecC6 (g : Generator) (sample : ℚ) : Generator × ℚ :=
  let pp := g.fltp
  let fltw' := max (min (g.fltw * g.fltw_d) (1/10)) 0
  let fltdp' :=
    if 0 < fltw' then
      let dp := g.fltdp + (sample - g.fltp) * fltw'
      dp - dp * g.fltdmp
    else 0
  let fltpBase := if 0 < fltw' then g.fltp else sample
  let fltp' := fltpBase + fltdp'
  let fltphp0 := g.fltphp + (fltp' - pp)
  let fltphp' := fltphp0 - fltphp0 * g.flthp
  ({ g with fltp := fltp', fltdp := fltdp', fltw := fltw', fltphp := fltphp' },
    fltphp')

/-- An everywhere-zero stand-in for `sin` (theorems about concrete square
wave states hold for every `rsin`; witnesses fix this one). -/
def rsinZero : ℚ → ℚ := fun _ => 0

/-- An everywhere-zero random stream (a fixed seeding of the noise table). -/
def rngZero : ℕ → ℚ := fun _ => 0

/-- Default sample with a phaser ramp (`pha_ramp = 1.0`): the phaser delay
moves by one slot per frame. -/
def samplePhaRamp : Sample := { Sample.new with pha_ramp := 1 }

/-- Default sample with a phaser offset (`pha_offset = 0.5`): the intended
initial phaser delay is `0.5^2 * 1020 = 255`. -/
def samplePhaOffset : Sample := { Sample.new with pha_offset := 1/2 }

/-- Default sample with a 10-frame attack and 10-frame sustain (no stage has
length zero, so `Envelope.volume` never divides by zero on this sample): the
envelope multiplier is 1/10 in the first frame and 2/10 in the second. -/
def sampleFastEnv : Sample :=
  { Sample.new with env_attack := 1/100, env_sustain := 1/100 }

/-- Default sample with all three envelope stages of length zero. -/
def sampleZeroEnv : Sample :=
  { Sample.new with env_attack := 0, env_sustain := 0, env_decay := 0 }

/-- Default sample with a falling low-pass ramp (`lpf_ramp = -1`), so the
low-pass coefficient `fltw` drifts away from its reset value as frames are
generated. -/
def sampleLpfRamp : Sample := { Sample.new with lpf_ramp := -1 }

/-- Default sample with the repeat feature armed (`repeat_speed = 1/2`, so
`rep_limit = 160000`): restarts do occur on long enough runs of this
sample, and short runs are windows between restarts. -/
def sampleRepHalf : Sample := { Sample.new with repeat_speed := 1/2 }

/-- The generator state reached from a fresh `sampleFastEnv` generator after
one frame: the filter and phaser hold nonzero state and the envelope
multiplier was 1/10 during the frame (it is 2/10 during the next). -/
def genC3 : Generator × ℕ :=
  Generator.frameStep rsinZero rngZero (Generator.new sampleFastEnv rngZero, 0)

/-- The generator state reached from a fresh `sampleLpfRamp` generator after
one frame: `fltw` has ramped away from its reset value. -/
def genC4 : Generator × ℕ :=
  Generator.frameStep rsinZero rngZero (Generator.new sampleLpfRamp rngZero, 0)

/-- A concrete mid-run generator state for comparing the source pipeline with
the spec's pipeline order: square wave at the default sample, fixed period
(`fperiod = 100`, unit slide), nonzero low-pass filter memory
(`fltp = 1/4`, as left behind by earlier snap steps of the `lpf_freq = 1`
filter under high-pass feedback), the envelope mid-decay (4 frames left of
4), fresh phaser, unit `volume`, and all repeat/arpeggio/vibrato/high-pass
modulators disarmed so the single frame under study is pure
oscillator-filter-phaser-envelope arithmetic. -/
def genSpecCmp : Generator :=
  { sample := Sample.new
    volume := 1
    playing_sample := true
    phase := 0
    fperiod := 100
    fmaxperiod := 1000
    fslide := 1
    fdslide := 0
    square_duty := 1/2
    square_slide := 0
    envelope :=
      { stage := EnvelopeStage.decay, stage_left := 4, attack := 0, sustain := 0,
        decay := 4, punch := 0 }
    env_vol := 0
    fphase := 0
    fdphase := 0
    phaser := Phaser.new
    noise_buffer := List.replicate 32 0
    fltp := 1/4
    fltdp := 0
    fltw := 0
    fltw_d := 1
    fltdmp := 0
    fltphp := 0
    flthp := 0
    flthp_d := 0
    vib_phase := 0
    vib_speed := 0
    vib_amp := 0
    rep_time := 0
    rep_limit := 0
    arp_time := 0
    arp_limit := 0
    arp_mod := 0 }

/-! ### Projection and preservation lemmas

The supersample loop only writes the oscillator/filter/phaser portion of the
state; every other field passes through unchanged, which the generic
projection lemma below captures once and for all. -/

theorem ssLoop_proj {α : Sort _} (rsin : ℚ → ℚ) (rng : ℕ → ℚ) (period : ℤ)
    (f : Generator → α)
    (hf : ∀ st : Generator × ℕ,
      f ((Generator.superCore rsin rng period st).1.1) = f st.1) :
    ∀ (n : ℕ) (st : (Generator × ℕ) × ℚ),
      f ((Generator.ssLoop rsin rng period n st).1.1) = f st.1.1
  | 0, _ => rfl
  | n + 1, st => by
    rw [Generator.ssLoop]
    rw [ssLoop_proj rsin rng period f hf n]
    exact hf st.1

theorem repStep_playing (g : Generator) :
    g.repStep.playing_sample = g.playing_sample := by
  simp only [Generator.repStep]
  split <;> rfl

theorem repStep_sample (g : Generator) : g.repStep.sample = g.sample := by
  simp only [Generator.repStep]
  split <;> rfl

theorem repStep_rep_limit (g : Generator) : g.repStep.rep_limit = g.rep_limit := by
  simp only [Generator.repStep]
  split <;> rfl

theorem repStep_phase (g : Generator) : g.repStep.phase = g.phase := by
  simp only [Generator.repStep]
  split <;> rfl

theorem repStep_envelope (g : Generator) : g.repStep.envelope = g.envelope := by
  simp only [Generator.repStep]
  split <;> rfl

theorem arpStep_playing (g : Generator) :
    g.arpStep.playing_sample = g.playing_sample := by
  simp only [Generator.arpStep]
  split <;> rfl

theorem arpStep_sample (g : Generator) : g.arpStep.sample = g.sample := by
  simp only [Generator.arpStep]
  split <;> rfl

theorem arpStep_rep_limit (g : Generator) : g.arpStep.rep_limit = g.rep_limit := by
  simp only [Generator.arpStep]
  split <;> rfl

theorem arpStep_phase (g : Generator) : g.arpStep.phase = g.phase := by
  simp only [Generator.arpStep]
  split <;> rfl

theorem arpStep_envelope (g : Generator) : g.arpStep.envelope = g.envelope := by
  simp only [Generator.arpStep]
  split <;> rfl

theorem repStep_fphase (g : Generator) : g.repStep.fphase = g.fphase := by
  simp only [Generator.repStep]
  split <;> rfl

theorem repStep_fdphase (g : Generator) : g.repStep.fdphase = g.fdphase := by
  simp only [Generator.repStep]
  split <;> rfl

theorem repStep_fltw (g : Generator) : g.repStep.fltw = g.fltw := by
  simp only [Generator.repStep]
  split <;> rfl

theorem repStep_fltw_d (g : Generator) : g.repStep.fltw_d = g.fltw_d := by
  simp only [Generator.repStep]
  split <;> rfl

theorem arpStep_fphase (g : Generator) : g.arpStep.fphase = g.fphase := by
  simp only [Generator.arpStep]
  split <;> rfl

theorem arpStep_fdphase (g : Generator) : g.arpStep.fdphase = g.fdphase := by
  simp only [Generator.arpStep]
  split <;> rfl

theorem arpStep_fltw (g : Generator) : g.arpStep.fltw = g.fltw := by
  simp only [Generator.arpStep]
  split <;> rfl

theorem arpStep_fltw_d (g : Generator) : g.arpStep.fltw_d = g.fltw_d := by
  simp only [Generator.arpStep]
  split <;> rfl

theorem repStep_volume (g : Generator) : g.repStep.volume = g.volume := by
  simp only [Generator.repStep]
  split <;> rfl

theorem arpStep_volume (g : Generator) : g.arpStep.volume = g.volume := by
  simp only [Generator.arpStep]
  split <;> rfl

/-- `Envelope::reset` overwrites every field (the new `stage_left` is the
new attack length), so its result does not depend on the previous
envelope. -/
theorem envelope_reset_congr (e e' : Envelope) (a s d : ℕ) (p : ℚ) :
    e.reset a s d p = e'.reset a s d p := rfl

/-- A full (`restart = false`) reset re-derives every field from the
`Sample`, a constant, or the fresh noise stream, except that it keeps
`sample`, `volume` and `playing_sample` and applies only a sign flip to the
previous `fphase` (the line-552 `==` bug): two states agreeing on those
four fields reset to the same state. -/
theorem reset_false_congr (g g' : Generator) (rng : ℕ → ℚ)
    (hs : g.sample = g'.sample) (hv : g.volume = g'.volume)
    (hp : g.playing_sample = g'.playing_sample)
    (hf : g.fphase = g'.fphase) :
    g.reset false rng = g'.reset false rng := by
  simp only [Generator.reset, if_neg Bool.false_ne_true]
  rw [envelope_reset_congr g.envelope g'.envelope, hs, hv, hp, hf]

theorem frameAdvance_fltw (rsin : ℚ → ℚ) (g : Generator) :
    (Generator.frameAdvance rsin g).1.fltw = g.repStep.arpStep.fltw := rfl

theorem frameAdvance_fltw_d (rsin : ℚ → ℚ) (g : Generator) :
    (Generator.frameAdvance rsin g).1.fltw_d = g.repStep.arpStep.fltw_d := rfl

theorem frameAdvance_fphase (rsin : ℚ → ℚ) (g : Generator) :
    (Generator.frameAdvance rsin g).1.fphase =
      g.repStep.arpStep.fphase + g.repStep.arpStep.fdphase := rfl

/-- A full (`restart = false`) reset applies only the sign-flip of line 553
to the previous `fphase` (line 552 being the no-op `==` comparison). -/
theorem reset_fphase_false (g : Generator) (rng : ℕ → ℚ) :
    (g.reset false rng).fphase =
      if g.sample.pha_offset < 0 then -g.fphase else g.fphase := rfl

theorem superStep_fltw (rsin : ℚ → ℚ) (rng : ℕ → ℚ) (period : ℤ)
    (st : (Generator × ℕ) × ℚ) :
    (Generator.superStep rsin rng period st).1.1.fltw =
      max (min (st.1.1.fltw * st.1.1.fltw_d) (1/10)) 0 := rfl

theorem superStep_fltw_d (rsin : ℚ → ℚ) (rng : ℕ → ℚ) (period : ℤ)
    (st : (Generator × ℕ) × ℚ) :
    (Generator.superStep rsin rng period st).1.1.fltw_d = st.1.1.fltw_d := rfl

/-- The low-pass coefficient after the supersampling loop: each inlined
filter step replaces `fltw` by the clamped `fltw * fltw_d` (the rate
`fltw_d` itself never changes inside the loop). Stated against an abstract
clamp function `c` fixed by `hc` so that callers can instantiate concrete
rates. -/
theorem ssLoop_fltw (rsin : ℚ → ℚ) (rng : ℕ → ℚ) (period : ℤ) :
    ∀ (n : ℕ) (st : (Generator × ℕ) × ℚ) (c : ℚ → ℚ),
      (∀ v : ℚ, c v = max (min (v * st.1.1.fltw_d) (1/10)) 0) →
      (Generator.ssLoop rsin rng period n st).1.1.fltw = c^[n] st.1.1.fltw
  | 0, st, c, hc => rfl
  | n + 1, st, c, hc => by
    have hc2 : ∀ v : ℚ, c v =
        max (min (v * (Generator.superStep rsin rng period st).1.1.fltw_d)
          (1/10)) 0 := by
      intro v
      rw [hc v, superStep_fltw_d]
    rw [Generator.ssLoop,
      ssLoop_fltw rsin rng period n (Generator.superStep rsin rng period st) c hc2,
      superStep_fltw, ← hc, Function.iterate_succ_apply]

/-- Eight iterations of the `fltw` clamp, written as nested applications. -/
theorem ssLoop_fltw8 (rsin : ℚ → ℚ) (rng : ℕ → ℚ) (period : ℤ)
    (st : (Generator × ℕ) × ℚ) (c : ℚ → ℚ) (w : ℚ)
    (hw : st.1.1.fltw = w)
    (hc : ∀ v : ℚ, c v = max (min (v * st.1.1.fltw_d) (1/10)) 0) :
    (Generator.ssLoop rsin rng period 8 st).1.1.fltw =
      c (c (c (c (c (c (c (c w))))))) := by
  rw [ssLoop_fltw rsin rng period 8 st c hc, hw]
  rfl

theorem generateFrame_playing (rsin : ℚ → ℚ) (rng : ℕ → ℚ) (gc : Generator × ℕ) :
    (Generator.generateFrame rsin rng gc).1.1.playing_sample = gc.1.playing_sample := by
  simp only [Generator.generateFrame]
  rw [ssLoop_proj rsin rng _ Generator.playing_sample (fun _ => rfl)]
  exact (arpStep_playing _).trans (repStep_playing _)

theorem generateFrame_sample (rsin : ℚ → ℚ) (rng : ℕ → ℚ) (gc : Generator × ℕ) :
    (Generator.generateFrame rsin rng gc).1.1.sample = gc.1.sample := by
  simp only [Generator.generateFrame]
  rw [ssLoop_proj rsin rng _ Generator.sample (fun _ => rfl)]
  exact (arpStep_sample _).trans (repStep_sample _)

theorem generateFrame_rep_limit (rsin : ℚ → ℚ) (rng : ℕ → ℚ) (gc : Generator × ℕ) :
    (Generator.generateFrame rsin rng gc).1.1.rep_limit = gc.1.rep_limit := by
  simp only [Generator.generateFrame]
  rw [ssLoop_proj rsin rng _ Generator.rep_limit (fun _ => rfl)]
  exact (arpStep_rep_limit _).trans (repStep_rep_limit _)

theorem generateFrame_arp_limit (rsin : ℚ → ℚ) (rng : ℕ → ℚ) (gc : Generator × ℕ) :
    (Generator.generateFrame rsin rng gc).1.1.arp_limit =
      gc.1.repStep.arpStep.arp_limit := by
  simp only [Generator.generateFrame]
  rw [ssLoop_proj rsin rng _ Generator.arp_limit (fun _ => rfl)]
  rfl

theorem generateFrame_envelope (rsin : ℚ → ℚ) (rng : ℕ → ℚ) (gc : Generator × ℕ) :
    (Generator.generateFrame rsin rng gc).1.1.envelope =
      gc.1.repStep.arpStep.envelope.advance := by
  simp only [Generator.generateFrame]
  rw [ssLoop_proj rsin rng _ Generator.envelope (fun _ => rfl)]
  rfl

theorem generateFrame_fphase (rsin : ℚ → ℚ) (rng : ℕ → ℚ) (gc : Generator × ℕ) :
    (Generator.generateFrame rsin rng gc).1.1.fphase =
      gc.1.repStep.arpStep.fphase + gc.1.repStep.arpStep.fdphase := by
  simp only [Generator.generateFrame]
  rw [ssLoop_proj rsin rng _ Generator.fphase (fun _ => rfl)]
  rfl

theorem generateFrame_volume (rsin : ℚ → ℚ) (rng : ℕ → ℚ) (gc : Generator × ℕ) :
    (Generator.generateFrame rsin rng gc).1.1.volume = gc.1.volume := by
  simp only [Generator.generateFrame]
  rw [ssLoop_proj rsin rng _ Generator.volume (fun _ => rfl)]
  exact (arpStep_volume _).trans (repStep_volume _)

theorem frameStep_volume (rsin : ℚ → ℚ) (rng : ℕ → ℚ) (gc : Generator × ℕ) :
    (Generator.frameStep rsin rng gc).1.volume = gc.1.volume := by
  unfold Generator.frameStep
  split
  · exact generateFrame_volume rsin rng gc
  · rfl

theorem frameStep_playing (rsin : ℚ → ℚ) (rng : ℕ → ℚ) (gc : Generator × ℕ) :
    (Generator.frameStep rsin rng gc).1.playing_sample = gc.1.playing_sample := by
  unfold Generator.frameStep
  split
  · exact generateFrame_playing rsin rng gc
  · rfl

theorem frameStep_sample (rsin : ℚ → ℚ) (rng : ℕ → ℚ) (gc : Generator × ℕ) :
    (Generator.frameStep rsin rng gc).1.sample = gc.1.sample := by
  unfold Generator.frameStep
  split
  · exact generateFrame_sample rsin rng gc
  · rfl

theorem frameStep_rep_limit (rsin : ℚ → ℚ) (rng : ℕ → ℚ) (gc : Generator × ℕ) :
    (Generator.frameStep rsin rng gc).1.rep_limit = gc.1.rep_limit := by
  unfold Generator.frameStep
  split
  · exact generateFrame_rep_limit rsin rng gc
  · rfl

theorem generateFrame_out_bounds (rsin : ℚ → ℚ) (rng : ℕ → ℚ) (gc : Generator × ℕ) :
    -1 ≤ (Generator.generateFrame rsin rng gc).2 ∧
      (Generator.generateFrame rsin rng gc).2 ≤ 1 := by
  simp only [Generator.generateFrame]
  exact ⟨le_max_right _ _, max_le (min_le_right _ _) (by norm_num)⟩

/-! ### Arpeggio one-shot machinery -/

theorem repStep_of_rep0 (g : Generator) (h : g.rep_limit = 0) :
    g.repStep.arp_limit = g.arp_limit ∧ g.repStep.arp_time = g.arp_time := by
  simp only [Generator.repStep]
  split
  next hc => exact absurd h hc.1
  next => exact ⟨rfl, rfl⟩

theorem repStep_arp_limit_speed1 (g : Generator) (hs : g.sample.arp_speed = 1)
    (h0 : g.arp_limit = 0) : g.repStep.arp_limit = 0 := by
  simp only [Generator.repStep]
  split
  next => simp [Generator.reset, hs]
  next => exact h0

theorem arpStep_arp_limit_of_zero (g : Generator) (h : g.arp_limit = 0) :
    g.arpStep.arp_limit = 0 := by
  simp only [Generator.arpStep]
  split
  next hc => exact absurd h hc.1
  next => exact h

theorem arpStep_arp_limit_of_fire (g : Generator) (h : g.arpFireCond) :
    g.arpStep.arp_limit = 0 := by
  simp only [Generator.arpStep]
  split
  next => rfl
  next hc => exact absurd ⟨h.1, h.2⟩ hc

theorem repStep_arp_limit_of_not_fire (g : Generator) (h : ¬ g.repFireCond) :
    g.repStep.arp_limit = g.arp_limit := by
  simp only [Generator.repStep]
  split
  next hc => exact absurd hc h
  next => rfl

theorem repFireCount_succ_zero_elim (rsin : ℚ → ℚ) (rng : ℕ → ℚ) (n : ℕ)
    (gc : Generator × ℕ)
    (h : Generator.repFireCount rsin rng gc (n + 1) = 0) :
    gc.1.repFired = false ∧
      Generator.repFireCount rsin rng (Generator.frameStep rsin rng gc) n = 0 := by
  rw [Generator.repFireCount] at h
  by_cases hrf : gc.1.repFired = true
  · rw [hrf] at h
    simp at h
  · rw [Bool.not_eq_true] at hrf
    rw [hrf] at h
    simp at h
    exact ⟨hrf, h⟩

theorem not_arpFireCond_of_zero (g : Generator) (h : g.arp_limit = 0) :
    ¬ g.arpFireCond := fun hc => hc.1 h

theorem arpFired_eq_false (g : Generator) (h : g.repStep.arp_limit = 0) :
    g.arpFired = false := by
  unfold Generator.arpFired
  rw [decide_eq_false (not_arpFireCond_of_zero _ h)]
  simp

theorem arpFired_true_elim (g : Generator) (h : g.arpFired = true) :
    g.playing_sample = true ∧ g.repStep.arpFireCond := by
  unfold Generator.arpFired at h
  simpa using h

/-- In a frame where no restart fires, a disarmed arpeggio limit stays
disarmed and the arpeggio step cannot fire. -/
theorem arp_limit_after_frame_of_noFire (rsin : ℚ → ℚ) (rng : ℕ → ℚ)
    (gc : Generator × ℕ) (hrf : gc.1.repFired = false)
    (h0 : gc.1.arp_limit = 0) :
    gc.1.arpFired = false ∧
      (Generator.frameStep rsin rng gc).1.arp_limit = 0 := by
  by_cases hp : gc.1.playing_sample = true
  · have hnc : ¬ gc.1.repFireCond := by
      intro hcond
      unfold Generator.repFired at hrf
      rw [hp, decide_eq_true hcond] at hrf
      simp at hrf
    have hrs : gc.1.repStep.arp_limit = 0 :=
      (repStep_arp_limit_of_not_fire gc.1 hnc).trans h0
    refine ⟨arpFired_eq_false gc.1 hrs, ?_⟩
    unfold Generator.frameStep
    rw [if_pos hp, generateFrame_arp_limit]
    exact arpStep_arp_limit_of_zero _ hrs
  · have hps : gc.1.playing_sample = false := by
      rw [Bool.not_eq_true] at hp
      exact hp
    have hfs : Generator.frameStep rsin rng gc = gc := by
      unfold Generator.frameStep
      rw [if_neg hp]
    refine ⟨?_, by rw [hfs]; exact h0⟩
    unfold Generator.arpFired
    rw [hps]
    rfl

theorem arpFireCount_eq_zero_of_noRestart (rsin : ℚ → ℚ) (rng : ℕ → ℚ) :
    ∀ (n : ℕ) (gc : Generator × ℕ),
      gc.1.arp_limit = 0 → Generator.repFireCount rsin rng gc n = 0 →
      Generator.arpFireCount rsin rng gc n = 0
  | 0, _, _, _ => rfl
  | n + 1, gc, h0, hnr => by
    obtain ⟨hrf, htail⟩ := repFireCount_succ_zero_elim rsin rng n gc hnr
    obtain ⟨hfire, harp⟩ := arp_limit_after_frame_of_noFire rsin rng gc hrf h0
    have hrec := arpFireCount_eq_zero_of_noRestart rsin rng n
      (Generator.frameStep rsin rng gc) harp htail
    simp [Generator.arpFireCount, hfire, hrec]

theorem arpFireCount_le_one_of_noRestart (rsin : ℚ → ℚ) (rng : ℕ → ℚ) :
    ∀ (n : ℕ) (gc : Generator × ℕ),
      Generator.repFireCount rsin rng gc n = 0 →
      Generator.arpFireCount rsin rng gc n ≤ 1
  | 0, _, _ => by simp [Generator.arpFireCount]
  | n + 1, gc, hnr => by
    obtain ⟨hrf, htail⟩ := repFireCount_succ_zero_elim rsin rng n gc hnr
    cases hf : gc.1.arpFired with
    | false =>
      have hrec := arpFireCount_le_one_of_noRestart rsin rng n
        (Generator.frameStep rsin rng gc) htail
      simpa [Generator.arpFireCount, hf] using hrec
    | true =>
      obtain ⟨hplay, hcond⟩ := arpFired_true_elim gc.1 hf
      have harp : (Generator.frameStep rsin rng gc).1.arp_limit = 0 := by
        unfold Generator.frameStep
        rw [if_pos hplay, generateFrame_arp_limit]
        exact arpStep_arp_limit_of_fire _ hcond
      have hrec := arpFireCount_eq_zero_of_noRestart rsin rng n
        (Generator.frameStep rsin rng gc) harp htail
      simp [Generator.arpFireCount, hf, hrec]

theorem arpFireCount_eq_zero (rsin : ℚ → ℚ) (rng : ℕ → ℚ) :
    ∀ (n : ℕ) (gc : Generator × ℕ),
      gc.1.arp_limit = 0 → gc.1.rep_limit = 0 →
      Generator.arpFireCount rsin rng gc n = 0
  | 0, _, _, _ => rfl
  | n + 1, gc, h0, hr => by
    have hrs : gc.1.repStep.arp_limit = 0 := (repStep_of_rep0 gc.1 hr).1.trans h0
    have hfire : gc.1.arpFired = false := arpFired_eq_false gc.1 hrs
    have harp : (Generator.frameStep rsin rng gc).1.arp_limit = 0 := by
      unfold Generator.frameStep
      split
      · rw [generateFrame_arp_limit]
        exact arpStep_arp_limit_of_zero _ hrs
      · exact h0
    have hrep : (Generator.frameStep rsin rng gc).1.rep_limit = 0 :=
      (frameStep_rep_limit rsin rng gc).trans hr
    have hrec := arpFireCount_eq_zero rsin rng n (Generator.frameStep rsin rng gc) harp hrep
    simp [Generator.arpFireCount, hfire, hrec]

theorem arpFireCount_le_one (rsin : ℚ → ℚ) (rng : ℕ → ℚ) :
    ∀ (n : ℕ) (gc : Generator × ℕ), gc.1.rep_limit = 0 →
      Generator.arpFireCount rsin rng gc n ≤ 1
  | 0, _, _ => by simp [Generator.arpFireCount]
  | n + 1, gc, hr => by
    have hrep : (Generator.frameStep rsin rng gc).1.rep_limit = 0 :=
      (frameStep_rep_limit rsin rng gc).trans hr
    cases hf : gc.1.arpFired with
    | false =>
      have hrec := arpFireCount_le_one rsin rng n (Generator.frameStep rsin rng gc) hrep
      simpa [Generator.arpFireCount, hf] using hrec
    | true =>
      obtain ⟨hplay, hcond⟩ := arpFired_true_elim gc.1 hf
      have harp : (Generator.frameStep rsin rng gc).1.arp_limit = 0 := by
        unfold Generator.frameStep
        rw [if_pos hplay]
        rw [generateFrame_arp_limit]
        exact arpStep_arp_limit_of_fire _ hcond
      have hrec := arpFireCount_eq_zero rsin rng n (Generator.frameStep rsin rng gc) harp hrep
      simp [Generator.arpFireCount, hf, hrec]

theorem arpFireCount_eq_zero_speed1 (rsin : ℚ → ℚ) (rng : ℕ → ℚ) :
    ∀ (n : ℕ) (gc : Generator × ℕ),
      gc.1.sample.arp_speed = 1 → gc.1.arp_limit = 0 →
      Generator.arpFireCount rsin rng gc n = 0
  | 0, _, _, _ => rfl
  | n + 1, gc, hs, h0 => by
    have hrs : gc.1.repStep.arp_limit = 0 := repStep_arp_limit_speed1 gc.1 hs h0
    have hfire : gc.1.arpFired = false := arpFired_eq_false gc.1 hrs
    have harp : (Generator.frameStep rsin rng gc).1.arp_limit = 0 := by
      unfold Generator.frameStep
      split
      · rw [generateFrame_arp_limit]
        exact arpStep_arp_limit_of_zero _ hrs
      · exact h0
    have hsam : (Generator.frameStep rsin rng gc).1.sample.arp_speed = 1 := by
      rw [frameStep_sample]; exact hs
    have hrec := arpFireCount_eq_zero_speed1 rsin rng n (Generator.frameStep rsin rng gc) hsam harp
    simp [Generator.arpFireCount, hfire, hrec]

/-! ### Oscillator phase and index bounds -/

theorem superCore_phase_bounds (rsin : ℚ → ℚ) (rng : ℕ → ℚ) (period : ℤ)
    (st : Generator × ℕ) (h8 : 8 ≤ period) (h0 : 0 ≤ st.1.phase) :
    0 ≤ (Generator.superCore rsin rng period st).1.1.phase ∧
      (Generator.superCore rsin rng period st).1.1.phase < period := by
  simp only [Generator.superCore, Generator.filterStep, Phaser.phase]
  split
  next hge =>
    split
    next => exact ⟨Int.tmod_nonneg _ (by omega), Int.tmod_lt_of_pos _ (by omega)⟩
    next => exact ⟨Int.tmod_nonneg _ (by omega), Int.tmod_lt_of_pos _ (by omega)⟩
  next hlt => exact ⟨by omega, by omega⟩

theorem ssLoop_phase_nonneg (rsin : ℚ → ℚ) (rng : ℕ → ℚ) (period : ℤ)
    (h8 : 8 ≤ period) :
    ∀ (n : ℕ) (st : (Generator × ℕ) × ℚ), 0 ≤ st.1.1.phase →
      0 ≤ (Generator.ssLoop rsin rng period n st).1.1.phase
  | 0, _, h => h
  | n + 1, st, h => by
    rw [Generator.ssLoop]
    exact ssLoop_phase_nonneg rsin rng period h8 n _
      (superCore_phase_bounds rsin rng period st.1 h8 h).1

theorem generateFrame_phase_nonneg (rsin : ℚ → ℚ) (rng : ℕ → ℚ)
    (gc : Generator × ℕ) (h : 0 ≤ gc.1.phase) :
    0 ≤ (Generator.generateFrame rsin rng gc).1.1.phase := by
  simp only [Generator.generateFrame]
  apply ssLoop_phase_nonneg rsin rng _ (le_max_right _ 8)
  show 0 ≤ gc.1.repStep.arpStep.phase
  rw [arpStep_phase, repStep_phase]
  exact h

theorem frameStep_phase_nonneg (rsin : ℚ → ℚ) (rng : ℕ → ℚ)
    (gc : Generator × ℕ) (h : 0 ≤ gc.1.phase) :
    0 ≤ (Generator.frameStep rsin rng gc).1.phase := by
  unfold Generator.frameStep
  split
  · exact generateFrame_phase_nonneg rsin rng gc h
  · exact h

theorem noiseIndex_le (fp : ℚ) (h0 : 0 ≤ fp) (h1 : fp < 1) : noiseIndex fp ≤ 31 := by
  unfold noiseIndex ratToUnsigned ratTrunc
  rw [if_pos (by nlinarith : (0:ℚ) ≤ fp * 32)]
  have hlt : ⌊fp * 32⌋ < 32 := by
    rw [Int.floor_lt]
    push_cast
    nlinarith
  omega

theorem phaser_writeIndex_lt (p : Phaser) : p.writeIndex < phaserBufferLen :=
  Nat.mod_lt _ (by norm_num [phaserBufferLen])

theorem phaser_readIndex_lt (p : Phaser) (f : ℚ) : p.readIndex f < phaserBufferLen :=
  Nat.mod_lt _ (by norm_num [phaserBufferLen])

theorem fp_bounds (ph per : ℤ) (h0 : 0 ≤ ph) (hlt : ph < per) :
    0 ≤ (ph : ℚ) / (per : ℚ) ∧ (ph : ℚ) / (per : ℚ) < 1 := by
  have hper : (0:ℚ) < (per : ℚ) := by exact_mod_cast lt_of_le_of_lt h0 hlt
  constructor
  · exact div_nonneg (by exact_mod_cast h0) hper.le
  · rw [div_lt_one hper]
    exact_mod_cast hlt

/-- C8: along any window of generated frames in which no repeat-triggered
restart fires (`repFireCount = 0` — a run "between resets/restarts", from
an arbitrary starting state, covering in particular samples with
`repeat_speed` in (0,1) between two of their restarts), the arpeggio
frequency step fires at most once: firing disarms `arp_limit`, and only a
restart can re-arm it. And it never fires at all when `arp_speed = 1.0`,
even across restarts, since every reset (full or partial) forces
`arp_limit = 0` for such samples. -/
theorem c8_arp_one_shot :
    (∀ (rsin : ℚ → ℚ) (rng : ℕ → ℚ) (gc : Generator × ℕ) (n : ℕ),
        Generator.repFireCount rsin rng gc n = 0 →
        Generator.arpFireCount rsin rng gc n ≤ 1) ∧
    (∀ (rsin : ℚ → ℚ) (rng seedRng : ℕ → ℚ) (s : Sample) (n : ℕ),
        s.arp_speed = 1 →
        Generator.arpFireCount rsin rng (Generator.new s seedRng, 0) n = 0) := by
  constructor
  · intro rsin rng gc n h
    exact arpFireCount_le_one_of_noRestart rsin rng n gc h
  · intro rsin rng seedRng s n hs
    apply arpFireCount_eq_zero_speed1
    · show (Generator.new s seedRng).sample.arp_speed = 1
      exact hs
    · show (Generator.new s seedRng).arp_limit = 0
      simp [Generator.new, Generator.reset, hs]

/-- Witness for C8: a restart-armed sample (`repeat_speed = 1/2`, so
`rep_limit = 160000` and restarts do occur on long runs) over a one-frame
restart-free window, and an `arp_speed = 1` sample over two frames. -/
theorem c8_arp_one_shot_witness :
    Generator.repFireCount rsinZero rngZero
        (Generator.new sampleRepHalf rngZero, 0) 1 = 0 ∧
    Generator.arpFireCount rsinZero rngZero
        (Generator.new sampleRepHalf rngZero, 0) 1 ≤ 1 ∧
    ({ Sample.new with arp_speed := 1 } : Sample).arp_speed = 1 ∧
    Generator.arpFireCount rsinZero rngZero
        (Generator.new { Sample.new with arp_speed := 1 } rngZero, 0) 2 = 0 := by
  have h1 : Generator.repFireCount rsinZero rngZero
      (Generator.new sampleRepHalf rngZero, 0) 1 = 0 := by
    have hrl : (Generator.new sampleRepHalf rngZero).rep_limit = 160000 := by
      norm_num [Generator.new, Generator.reset, sampleRepHalf, Sample.new, ratTrunc]
    have hrt : (Generator.new sampleRepHalf rngZero).rep_time = 0 := by
      norm_num [Generator.new, Generator.reset, sampleRepHalf, Sample.new]
    have hnc : ¬ (Generator.new sampleRepHalf rngZero).repFireCond := by
      unfold Generator.repFireCond
      rw [hrl, hrt]
      norm_num
    have hrf : (Generator.new sampleRepHalf rngZero).repFired = false := by
      unfold Generator.repFired
      rw [decide_eq_false hnc]
      simp
    show (if (Generator.new sampleRepHalf rngZero).repFired = true then 1 else 0) +
        Generator.repFireCount rsinZero rngZero
          (Generator.frameStep rsinZero rngZero
            (Generator.new sampleRepHalf rngZero, 0)) 0 = 0
    rw [hrf]
    rfl
  exact ⟨h1, c8_arp_one_shot.1 rsinZero rngZero _ 1 h1, rfl,
    c8_arp_one_shot.2 rsinZero rngZero rngZero _ 2 rfl⟩

/-- C10: the noise-table index `(fp * 32) as usize` lies in [0, 31] whenever
the fractional phase is in [0, 1), which holds at the oscillator's access
point because the wrapped phase stays in [0, period); and both phaser
delay-buffer indices are reduced modulo the buffer length 1024, hence lie in
[0, 1023] for every `fphase`. The phase invariant `0 ≤ phase` is established
by `Generator::new` and preserved by every frame. -/
theorem c10_index_bounds :
    (∀ fp : ℚ, 0 ≤ fp → fp < 1 → noiseIndex fp ≤ 31) ∧
    (∀ (p : Phaser) (f : ℚ), p.writeIndex < 1024 ∧ p.readIndex f < 1024) ∧
    (∀ (rsin : ℚ → ℚ) (rng : ℕ → ℚ) (period : ℤ) (st : Generator × ℕ),
        8 ≤ period → 0 ≤ st.1.phase →
        0 ≤ (Generator.superCore rsin rng period st).1.1.phase ∧
        (Generator.superCore rsin rng period st).1.1.phase < period ∧
        noiseIndex (((Generator.superCore rsin rng period st).1.1.phase : ℚ) /
            (period : ℚ)) ≤ 31) ∧
    (∀ (rsin : ℚ → ℚ) (rng : ℕ → ℚ) (gc : Generator × ℕ),
        0 ≤ gc.1.phase → 0 ≤ (Generator.frameStep rsin rng gc).1.phase) ∧
    (∀ (s : Sample) (seedRng : ℕ → ℚ), (Generator.new s seedRng).phase = 0) := by
  refine ⟨noiseIndex_le, ?_, ?_, frameStep_phase_nonneg, fun _ _ => rfl⟩
  · intro p f
    exact ⟨phaser_writeIndex_lt p, phaser_readIndex_lt p f⟩
  · intro rsin rng period st h8 h0
    obtain ⟨hl, hr⟩ := superCore_phase_bounds rsin rng period st h8 h0
    have hfp := fp_bounds _ _ hl hr
    exact ⟨hl, hr, noiseIndex_le _ hfp.1 hfp.2⟩

/-! ### Buffer-filling and determinism machinery -/

theorem generateSlots_spec (rsin : ℚ → ℚ) (rng : ℕ → ℚ) :
    ∀ (buf : List ℚ) (gc : Generator × ℕ), gc.1.playing_sample = true →
      (Generator.generateSlots rsin rng gc buf).1.1.playing_sample = true ∧
      (Generator.generateSlots rsin rng gc buf).2.length = buf.length ∧
      ∀ v ∈ (Generator.generateSlots rsin rng gc buf).2, -1 ≤ v ∧ v ≤ 1
  | [], _, h => ⟨h, rfl, fun v hv => absurd hv (List.not_mem_nil v)⟩
  | b :: rest, gc, h => by
    have h' : (Generator.generateFrame rsin rng gc).1.1.playing_sample = true :=
      (generateFrame_playing rsin rng gc).trans h
    have hrec := generateSlots_spec rsin rng rest (Generator.generateFrame rsin rng gc).1 h'
    simp only [Generator.generateSlots]
    rw [if_pos h]
    refine ⟨hrec.1, ?_, ?_⟩
    · simpa using hrec.2.1
    · intro v hv
      rcases List.mem_cons.mp hv with hv | hv
      · rw [hv]
        exact generateFrame_out_bounds rsin rng gc
      · exact hrec.2.2 v hv

theorem generate_spec (rsin : ℚ → ℚ) (rng : ℕ → ℚ) (g : Generator)
    (buf : List ℚ) (h : g.playing_sample = true) :
    (Generator.generate rsin rng g buf).1.playing_sample = true ∧
    (Generator.generate rsin rng g buf).2.length = buf.length ∧
    ∀ v ∈ (Generator.generate rsin rng g buf).2, -1 ≤ v ∧ v ≤ 1 :=
  generateSlots_spec rsin rng buf (g, 0) h

theorem generateSlots_congr_len (rsin : ℚ → ℚ) (rng : ℕ → ℚ) :
    ∀ (buf1 buf2 : List ℚ) (gc : Generator × ℕ),
      gc.1.playing_sample = true → buf1.length = buf2.length →
      (Generator.generateSlots rsin rng gc buf1).1 =
        (Generator.generateSlots rsin rng gc buf2).1 ∧
      (Generator.generateSlots rsin rng gc buf1).2 =
        (Generator.generateSlots rsin rng gc buf2).2
  | [], [], _, _, _ => ⟨rfl, rfl⟩
  | [], _ :: _, _, _, hl => by simp at hl
  | _ :: _, [], _, _, hl => by simp at hl
  | _ :: as, _ :: bs, gc, h, hl => by
    have h' : (Generator.generateFrame rsin rng gc).1.1.playing_sample = true :=
      (generateFrame_playing rsin rng gc).trans h
    have hrec := generateSlots_congr_len rsin rng as bs
      (Generator.generateFrame rsin rng gc).1 h' (by simpa using hl)
    simp only [Generator.generateSlots]
    simp only [if_pos h]
    exact ⟨hrec.1, by rw [hrec.2]⟩

theorem generate_congr_len (rsin : ℚ → ℚ) (rng : ℕ → ℚ) (g : Generator)
    (buf1 buf2 : List ℚ) (h : g.playing_sample = true)
    (hl : buf1.length = buf2.length) :
    (Generator.generate rsin rng g buf1).1 = (Generator.generate rsin rng g buf2).1 ∧
    (Generator.generate rsin rng g buf1).2 = (Generator.generate rsin rng g buf2).2 := by
  have h' := generateSlots_congr_len rsin rng buf1 buf2 (g, 0) h hl
  exact ⟨congrArg (fun r => r.1) h'.1, h'.2⟩

theorem runCalls_congr_len (rsin : ℚ → ℚ) (rngs : ℕ → ℕ → ℚ) :
    ∀ (bufs1 bufs2 : List (List ℚ)) (g : Generator) (i : ℕ),
      g.playing_sample = true →
      bufs1.map List.length = bufs2.map List.length →
      (Generator.runCalls rsin rngs g i bufs1).1 =
        (Generator.runCalls rsin rngs g i bufs2).1 ∧
      (Generator.runCalls rsin rngs g i bufs1).2 =
        (Generator.runCalls rsin rngs g i bufs2).2
  | [], [], _, _, _, _ => ⟨rfl, rfl⟩
  | [], _ :: _, _, _, _, hl => by simp at hl
  | _ :: _, [], _, _, _, hl => by simp at hl
  | a :: as, b :: bs, g, i, h, hl => by
    have hlist : a.length = b.length ∧ as.map List.length = bs.map List.length := by
      simpa using hl
    have hgen := generate_congr_len rsin (rngs i) g a b h hlist.1
    have hplay : (Generator.generate rsin (rngs i) g a).1.playing_sample = true :=
      (generate_spec rsin (rngs i) g a h).1
    have hrec := runCalls_congr_len rsin rngs as bs
      (Generator.generate rsin (rngs i) g a).1 (i + 1) hplay hlist.2
    simp only [Generator.runCalls]
    constructor
    · exact hrec.1.trans (by rw [hgen.1])
    · rw [hgen.2, hrec.2, hgen.1]

/-- C1: while `playing_sample` holds (it is true at construction and no code
path ever clears it), every `generate` call of a call sequence overwrites
every element of its buffer, each stored value lies in [-1, 1] (the final
clamp), and the state remains playable, so the calls may be repeated with
any buffer lengths. -/
theorem c1_generate_fills_and_clamps :
    ∀ (rsin : ℚ → ℚ) (rngs : ℕ → ℕ → ℚ) (g : Generator) (i : ℕ)
      (bufs : List (List ℚ)),
      g.playing_sample = true →
      ((Generator.runCalls rsin rngs g i bufs).2.map List.length =
          bufs.map List.length) ∧
      (∀ out ∈ (Generator.runCalls rsin rngs g i bufs).2, ∀ v ∈ out,
          -1 ≤ v ∧ v ≤ 1) ∧
      (Generator.runCalls rsin rngs g i bufs).1.playing_sample = true := by
  intro rsin rngs g i bufs
  induction bufs generalizing g i with
  | nil =>
    intro h
    exact ⟨rfl, fun out hout => absurd hout (List.not_mem_nil out), h⟩
  | cons b bs ih =>
    intro h
    have hcall := generate_spec rsin (rngs i) g b h
    have hrec := ih (Generator.generate rsin (rngs i) g b).1 (i + 1) hcall.1
    simp only [Generator.runCalls]
    refine ⟨?_, ?_, hrec.2.2⟩
    · simp only [List.map_cons]
      rw [hcall.2.1, hrec.1]
    · intro out hout
      rcases List.mem_cons.mp hout with hout | hout
      · rw [hout]
        exact hcall.2.2
      · exact hrec.2.1 out hout

/-- Witness for C1: a fresh default generator (playing) and two calls with
buffers of lengths 1 and 2. -/
theorem c1_generate_fills_and_clamps_witness :
    (Generator.new Sample.new rngZero).playing_sample = true ∧
    ((Generator.runCalls rsinZero (fun _ => rngZero)
        (Generator.new Sample.new rngZero) 0 [[0], [0, 0]]).2.map List.length =
      [[0], [0, 0]].map (List.length (α := ℚ))) := by
  refine ⟨rfl, ?_⟩
  exact (c1_generate_fills_and_clamps rsinZero (fun _ => rngZero)
    (Generator.new Sample.new rngZero) 0 [[0], [0, 0]] rfl).1

/-- C9: two generators built from the same `Sample` with identical
noise-table seeding and driven by `generate` calls of equal buffer lengths
(and per-call noise streams) produce identical output sequences, regardless
of the initial contents of the buffers. -/
theorem c9_deterministic :
    ∀ (rsin : ℚ → ℚ) (rngs : ℕ → ℕ → ℚ) (s : Sample) (seedRng : ℕ → ℚ)
      (i : ℕ) (bufs1 bufs2 : List (List ℚ)) (g1 g2 : Generator),
      g1 = Generator.new s seedRng → g2 = Generator.new s seedRng →
      bufs1.map List.length = bufs2.map List.length →
      (Generator.runCalls rsin rngs g1 i bufs1).2 =
        (Generator.runCalls rsin rngs g2 i bufs2).2 := by
  intro rsin rngs s seedRng i bufs1 bufs2 g1 g2 h1 h2 hl
  subst h1
  subst h2
  exact (runCalls_congr_len rsin rngs bufs1 bufs2 (Generator.new s seedRng) i rfl hl).2

/-- Witness for C9: default sample, same seeding, buffers of equal lengths
but different initial contents. -/
theorem c9_deterministic_witness :
    (Generator.runCalls rsinZero (fun _ => rngZero)
        (Generator.new Sample.new rngZero) 0 [[0, 0]]).2 =
      (Generator.runCalls rsinZero (fun _ => rngZero)
        (Generator.new Sample.new rngZero) 0 [[5, 7]]).2 :=
  c9_deterministic rsinZero (fun _ => rngZero) Sample.new rngZero 0
    [[0, 0]] [[5, 7]] _ _ rfl rfl rfl

/-! ### Supersample accumulation factoring -/

theorem ssLoop_factored (rsin : ℚ → ℚ) (rng : ℕ → ℚ) (period : ℤ) :
    ∀ (n : ℕ) (st : (Generator × ℕ) × ℚ),
      (Generator.ssLoop rsin rng period n st).2 =
        st.2 + (Generator.superOuts rsin rng period n st.1).sum * st.1.1.env_vol
  | 0, st => by simp [Generator.ssLoop, Generator.superOuts]
  | n + 1, st => by
    rw [Generator.ssLoop, ssLoop_factored rsin rng period n]
    show st.2 + (Generator.superCore rsin rng period st.1).2 *
        (Generator.superCore rsin rng period st.1).1.1.env_vol +
        (Generator.superOuts rsin rng period n
          (Generator.superCore rsin rng period st.1).1).sum *
          (Generator.superCore rsin rng period st.1).1.1.env_vol =
      st.2 + (Generator.superOuts rsin rng period (n + 1) st.1).sum * st.1.1.env_vol
    rw [show (Generator.superCore rsin rng period st.1).1.1.env_vol =
        st.1.1.env_vol from rfl]
    rw [Generator.superOuts, List.sum_cons]
    ring

/-- C3 amended: within one output frame each of the 8 supersamples runs
through the filter, then the phaser (`superCore`), and only then is the
result multiplied by `Envelope.volume()` (the frame's `env_vol`) and
accumulated; equivalently the accumulated value is the sum of the 8
filter-phaser outputs times `env_vol`, and the frame output is that sum
times `volume`, divided by 8 and clamped to [-1, 1]. (The spec's order
'envelope first, then filter, then phaser' does not hold; see the
counterexample.) -/
theorem c3_envelope_applied_after_phaser :
    (∀ (rsin : ℚ → ℚ) (rng : ℕ → ℚ) (period : ℤ) (n : ℕ)
        (st : (Generator × ℕ) × ℚ),
      (Generator.ssLoop rsin rng period n st).2 =
        st.2 + (Generator.superOuts rsin rng period n st.1).sum * st.1.1.env_vol) ∧
    (∀ (rsin : ℚ → ℚ) (rng : ℕ → ℚ) (gc : Generator × ℕ),
      (Generator.generateFrame rsin rng gc).2 =
        max (min ((Generator.superOuts rsin rng (Generator.frameAdvance rsin gc.1).2 8
            ((Generator.frameAdvance rsin gc.1).1, gc.2)).sum *
            (Generator.frameAdvance rsin gc.1).1.env_vol *
            (Generator.frameAdvance rsin gc.1).1.volume / 8) 1) (-1)) := by
  constructor
  · exact ssLoop_factored
  · intro rsin rng gc
    simp only [Generator.generateFrame]
    rw [ssLoop_factored rsin rng _ 8]
    rw [ssLoop_proj rsin rng _ Generator.volume (fun _ => rfl) 8]
    rw [zero_add]

/-- C4 amended: a restart (`reset(true)`, as triggered when the armed repeat
counter is reached) re-derives the oscillator frequency-slide, duty and
arpeggio state from the `Sample`, but leaves the filter coefficients and
filter state, the envelope, the vibrato phase, the phaser state and
`fphase`/`fdphase`, the noise table, the oscillator phase and the repeat
bookkeeping untouched. (The claim's assertion that restart re-derives the
filter coefficients does not hold; see the counterexample.) -/
theorem c4_restart_effect :
    ∀ (g : Generator) (rng : ℕ → ℚ),
      ((g.reset true rng).fperiod = 100 / (g.sample.base_freq ^ 2 + 1/1000) ∧
       (g.reset true rng).fmaxperiod = 100 / (g.sample.freq_limit ^ 2 + 1/1000) ∧
       (g.reset true rng).fslide = 1 - g.sample.freq_ramp ^ 3 * (1/100) ∧
       (g.reset true rng).fdslide = -(g.sample.freq_dramp ^ 3 * (1/1000000)) ∧
       (g.reset true rng).square_duty = 1/2 - g.sample.duty * (1/2) ∧
       (g.reset true rng).square_slide = -(g.sample.duty_ramp * (5/100000)) ∧
       (g.reset true rng).arp_mod = (if g.sample.arp_mod ≥ 0
          then 1 - g.sample.arp_mod ^ 2 * (9/10)
          else 1 - g.sample.arp_mod ^ 2 * 10) ∧
       (g.reset true rng).arp_time = 0 ∧
       (g.reset true rng).arp_limit = (if g.sample.arp_speed = 1 then 0
          else ratTrunc ((1 - g.sample.arp_speed) ^ 2 * 20000 + 32))) ∧
      ((g.reset true rng).fltw = g.fltw ∧
       (g.reset true rng).fltw_d = g.fltw_d ∧
       (g.reset true rng).fltdmp = g.fltdmp ∧
       (g.reset true rng).flthp = g.flthp ∧
       (g.reset true rng).flthp_d = g.flthp_d ∧
       (g.reset true rng).fltp = g.fltp ∧
       (g.reset true rng).fltdp = g.fltdp ∧
       (g.reset true rng).fltphp = g.fltphp) ∧
      ((g.reset true rng).envelope = g.envelope ∧
       (g.reset true rng).env_vol = g.env_vol ∧
       (g.reset true rng).vib_phase = g.vib_phase ∧
       (g.reset true rng).vib_speed = g.vib_speed ∧
       (g.reset true rng).vib_amp = g.vib_amp ∧
       (g.reset true rng).phaser = g.phaser ∧
       (g.reset true rng).fphase = g.fphase ∧
       (g.reset true rng).fdphase = g.fdphase ∧
       (g.reset true rng).noise_buffer = g.noise_buffer ∧
       (g.reset true rng).phase = g.phase ∧
       (g.reset true rng).rep_time = g.rep_time ∧
       (g.reset true rng).rep_limit = g.rep_limit ∧
       (g.reset true rng).playing_sample = g.playing_sample ∧
       (g.reset true rng).sample = g.sample) := by
  intro g rng
  exact ⟨⟨rfl, rfl, rfl, rfl, rfl, rfl, rfl, rfl, rfl⟩,
    ⟨rfl, rfl, rfl, rfl, rfl, rfl, rfl, rfl⟩,
    ⟨rfl, rfl, rfl, rfl, rfl, rfl, rfl, rfl, rfl, rfl, rfl, rfl, rfl, rfl⟩⟩

/-- C4 counterexample: after one frame of a `lpf_ramp = -1` run the low-pass
coefficient has drifted (eight clamped multiplications by `fltw_d = 0.9999`
away from its reset value `0.1`); a restart leaves it at the drifted value
`0.1 * 0.9999^8` instead of re-deriving `lpf_freq^3 * 0.1 = 0.1` from the
`Sample`, refuting the claim that a restart re-derives the filter
coefficients. -/
theorem c4_counterexample :
    (genC4.1.reset true rngZero).fltw ≠ genC4.1.sample.lpf_freq ^ 3 * (1/10) := by
  have hs : genC4.1.sample = sampleLpfRamp :=
    (frameStep_sample rsinZero rngZero (Generator.new sampleLpfRamp rngZero, 0)).trans
      rfl
  have hd : (Generator.frameAdvance rsinZero
      (Generator.new sampleLpfRamp rngZero)).1.fltw_d = 9999/10000 := by
    rw [frameAdvance_fltw_d, arpStep_fltw_d, repStep_fltw_d]
    norm_num [Generator.new, Generator.reset, sampleLpfRamp, Sample.new]
  have hbase : (Generator.frameAdvance rsinZero
      (Generator.new sampleLpfRamp rngZero)).1.fltw = 1/10 := by
    rw [frameAdvance_fltw, arpStep_fltw, repStep_fltw]
    norm_num [Generator.new, Generator.reset, sampleLpfRamp, Sample.new]
  have hw : genC4.1.fltw =
      99920027994400699944002799920001/1000000000000000000000000000000000 := by
    show (Generator.ssLoop rsinZero rngZero
        (Generator.frameAdvance rsinZero (Generator.new sampleLpfRamp rngZero)).2 8
        (((Generator.frameAdvance rsinZero (Generator.new sampleLpfRamp rngZero)).1,
          0), 0)).1.1.fltw = _
    refine (ssLoop_fltw8 rsinZero rngZero _ _
        (fun v => max (min (v * (9999/10000)) (1/10)) 0) (1/10) ?_ ?_).trans ?_
    · exact hbase
    · intro v
      show max (min (v * (9999/10000)) (1/10)) 0 =
        max (min (v * (Generator.frameAdvance rsinZero
          (Generator.new sampleLpfRamp rngZero)).1.fltw_d) (1/10)) 0
      rw [hd]
    · norm_num [min_def, max_def]
  rw [show (genC4.1.reset true rngZero).fltw = genC4.1.fltw from rfl, hw, hs]
  norm_num [sampleLpfRamp, Sample.new]

/-- C5: at a full reset, src/lib.rs line 552 compares (`==`) instead of
assigning (`=`), so `fphase` is left at its previous value (0 for a fresh
generator) rather than the intended `pha_offset^2 * 1020 = 255`; the
`Phaser::reset` of src/generator.rs performs the intended assignment, and
`fdphase` is assigned as the claim states. -/
theorem c5_fphase_comparison_bug :
    (Generator.new samplePhaOffset rngZero).fphase = 0 ∧
    samplePhaOffset.pha_offset ^ 2 * 1020 = 255 ∧
    (GPhaser.new.reset samplePhaOffset.pha_offset samplePhaOffset.pha_ramp).fphase = 255 ∧
    (Generator.new samplePhaOffset rngZero).fdphase = 0 := by
  refine ⟨?_, ?_, ?_, ?_⟩ <;>
    norm_num [Generator.new, Generator.reset, GPhaser.new, GPhaser.reset,
      samplePhaOffset, Sample.new, Phaser.new]

/-- C6 amended: the inlined per-sample filter step of `Generator::generate`
(src/lib.rs) integrates with the damped spring dynamics exactly when
`sample.lpf_freq < 1.0` and otherwise snaps `fltp` to the input and zeroes
`fltdp`; the standalone `HighLowPassFilter::filter` of src/generator.rs is
the variant that branches on `fltw > 0` as the claim words it. -/
theorem c6_filter_branch_conditions :
    (∀ (g : Generator) (x : ℚ),
      (g.sample.lpf_freq < 1 →
        (g.filterStep x).1.fltdp =
          (g.fltdp + (x - g.fltp) * max (min (g.fltw * g.fltw_d) (1/10)) 0) -
            (g.fltdp + (x - g.fltp) * max (min (g.fltw * g.fltw_d) (1/10)) 0) *
              g.fltdmp ∧
        (g.filterStep x).1.fltp = g.fltp + (g.filterStep x).1.fltdp) ∧
      (¬ g.sample.lpf_freq < 1 →
        (g.filterStep x).1.fltp = x ∧ (g.filterStep x).1.fltdp = 0)) ∧
    (∀ (f : GHighLowPassFilter) (x : ℚ),
      (0 < f.fltw →
        (f.filter x).1.fltdp =
          (f.fltdp + (x - f.fltp) * max (min (f.fltw * f.fltw_d) (1/10)) 0) -
            (f.fltdp + (x - f.fltp) * max (min (f.fltw * f.fltw_d) (1/10)) 0) *
              f.fltdmp ∧
        (f.filter x).1.fltp = f.fltp + (f.filter x).1.fltdp) ∧
      (¬ 0 < f.fltw →
        (f.filter x).1.fltp = x ∧ (f.filter x).1.fltdp = 0)) := by
  constructor
  · intro g x
    constructor
    · intro h
      simp only [Generator.filterStep, if_pos h]
      exact ⟨trivial, trivial⟩
    · intro h
      simp only [Generator.filterStep, if_neg h]
      exact ⟨add_zero x, trivial⟩
  · intro f x
    constructor
    · intro h
      simp only [GHighLowPassFilter.filter, if_pos h]
      exact ⟨trivial, trivial⟩
    · intro h
      simp only [GHighLowPassFilter.filter, if_neg h]
      exact ⟨add_zero x, trivial⟩

/-- Witness for C6 at the default sample (`lpf_freq = 1`, so the snap branch
is taken) with input 1/2. -/
theorem c6_filter_branch_conditions_witness :
    ¬ (Generator.new Sample.new rngZero).sample.lpf_freq < 1 ∧
    ((Generator.new Sample.new rngZero).filterStep (1/2)).1.fltp = 1/2 ∧
    ((Generator.new Sample.new rngZero).filterStep (1/2)).1.fltdp = 0 := by
  have h : ¬ (Generator.new Sample.new rngZero).sample.lpf_freq < 1 := by
    norm_num [Generator.new, Generator.reset, Sample.new]
  have h2 := (c6_filter_branch_conditions.1 (Generator.new Sample.new rngZero) (1/2)).2 h
  exact ⟨h, h2.1, h2.2⟩

/-- C6 counterexample: a fresh default generator has `fltw = 0.1 > 0` but
`lpf_freq = 1.0`, so the claim's `fltw > 0` rule demands integration while
the generate-loop filter snaps; the two disagree on input 1/2 (output 1/2
versus 9/400). -/
theorem c6_counterexample :
    ((Generator.new Sample.new rngZero).filterStep (1/2)).2 ≠
      ((Generator.new Sample.new rngZero).filterStepSpecC6 (1/2)).2 := by
  norm_num [Generator.filterStep, Generator.filterStepSpecC6, Generator.new,
    Generator.reset, Sample.new, min_def, max_def]

/-- C7 amended: the `fperiod`/`fmaxperiod`/`fltdmp` derivations of
`Generator::reset` divide by expressions that are strictly positive for
every `Sample` (the `+0.001` and `1 + resonance^2*20` guards), but
`Envelope::volume` computes `stage_left / current_stage_length`
unconditionally, and the divisor is zero in the terminal (End) stage — and
in any stage whose length parameter gives a zero frame count — so that
division by a zero stage length does occur in reachable states. -/
theorem c7_division_guards :
    (∀ (g : Generator) (restart : Bool) (rng : ℕ → ℚ),
      (g.reset restart rng).fperiod = 100 / (g.sample.base_freq ^ 2 + 1/1000) ∧
      0 < g.sample.base_freq ^ 2 + 1/1000 ∧
      (g.reset restart rng).fmaxperiod = 100 / (g.sample.freq_limit ^ 2 + 1/1000) ∧
      0 < g.sample.freq_limit ^ 2 + 1/1000 ∧
      0 < 1 + g.sample.lpf_resonance ^ 2 * 20) ∧
    (∀ e : Envelope, e.stage = EnvelopeStage.last → e.volumeDivisorIsZero) := by
  constructor
  · intro g restart rng
    exact ⟨rfl, by positivity, rfl, by positivity, by positivity⟩
  · intro e h
    unfold Envelope.volumeDivisorIsZero Envelope.current_stage_length
    rw [h]

/-- Witness for C7: a terminal-stage envelope has a zero volume divisor, and
the reset denominators are positive at the default sample. -/
theorem c7_division_guards_witness :
    ({ Envelope.new with stage := EnvelopeStage.last } : Envelope).volumeDivisorIsZero ∧
    0 < Sample.new.base_freq ^ 2 + 1/1000 := by
  constructor
  · exact c7_division_guards.2 _ rfl
  · exact (c7_division_guards.1 (Generator.new Sample.new rngZero) false rngZero).2.1

/-- C7 counterexample: with all three envelope stage parameters zero (a
valid `Sample`), the very first frame advances the envelope into a stage of
length zero, so `Envelope::volume` divides `stage_left` by a zero stage
length, refuting 'never divides by zero'. -/
theorem c7_counterexample :
    sampleZeroEnv.valid ∧
    (Generator.frameStep rsinZero rngZero
        (Generator.new sampleZeroEnv rngZero, 0)).1.envelope.volumeDivisorIsZero := by
  constructor
  · norm_num [Sample.valid, sampleZeroEnv, Sample.new]
  · show (Generator.generateFrame rsinZero rngZero
        (Generator.new sampleZeroEnv rngZero, 0)).1.1.envelope.volumeDivisorIsZero
    rw [generateFrame_envelope]
    rw [arpStep_envelope, repStep_envelope]
    have henv : (Generator.new sampleZeroEnv rngZero).envelope =
        { stage := EnvelopeStage.attack, stage_left := 0, attack := 0, sustain := 0,
          decay := 0, punch := 0 } := by
      norm_num [Generator.new, Generator.reset, Envelope.reset, Envelope.new,
        Envelope.current_stage_length, ratToUnsigned, ratTrunc, sampleZeroEnv,
        Sample.new]
    rw [henv]
    decide

set_option maxHeartbeats 4000000 in
/-- C2: because src/lib.rs line 552 compares instead of assigning, a full
reset does not restore `fphase` to its fresh value. With `pha_ramp = 1` a
fresh generator starts at `fphase = 0`; one generated frame moves `fphase`
to 1, and `reset(false)` then leaves it at 1 (only the `pha_offset < 0`
sign flip of line 553 is applied). The phaser therefore reads a different
delay slot during regeneration and the regenerated first frame differs
from the original first frame, refuting reset/new round-tripping. -/
theorem c2_reset_fphase_bug :
    (Generator.new samplePhaRamp rngZero).fphase = 0 ∧
    ((Generator.generate rsinZero rngZero (Generator.new samplePhaRamp rngZero)
        [0]).1.reset false rngZero).fphase = 1 ∧
    (Generator.generate rsinZero rngZero
        ((Generator.generate rsinZero rngZero (Generator.new samplePhaRamp rngZero)
            [0]).1.reset false rngZero) [0]).2 ≠
      (Generator.generate rsinZero rngZero (Generator.new samplePhaRamp rngZero)
        [0]).2 := by
  have h0 : (Generator.new samplePhaRamp rngZero).fphase = 0 := by
    norm_num [Generator.new, Generator.reset, samplePhaRamp, Sample.new]
  have h1 : (Generator.frameStep rsinZero rngZero
      (Generator.new samplePhaRamp rngZero, 0)).1.fphase = 1 := by
    show (Generator.generateFrame rsinZero rngZero
        (Generator.new samplePhaRamp rngZero, 0)).1.1.fphase = 1
    rw [generateFrame_fphase, arpStep_fphase, repStep_fphase, arpStep_fdphase,
      repStep_fdphase]
    norm_num [Generator.new, Generator.reset, samplePhaRamp, Sample.new]
  have hsamp : (Generator.frameStep rsinZero rngZero
      (Generator.new samplePhaRamp rngZero, 0)).1.sample = samplePhaRamp :=
    (frameStep_sample rsinZero rngZero (Generator.new samplePhaRamp rngZero, 0)).trans
      rfl
  have h2 : ((Generator.frameStep rsinZero rngZero
      (Generator.new samplePhaRamp rngZero, 0)).1.reset false rngZero).fphase = 1 := by
    rw [reset_fphase_false, hsamp, h1]
    norm_num [samplePhaRamp, Sample.new]
  have hB : (Generator.generate rsinZero rngZero (Generator.new samplePhaRamp rngZero)
      [0]).1.reset false rngZero =
      ({ Generator.new samplePhaRamp rngZero with fphase := 1 } : Generator).reset
        false rngZero := by
    apply reset_false_congr
    · show (Generator.frameStep rsinZero rngZero
          (Generator.new samplePhaRamp rngZero, 0)).1.sample = _
      exact (frameStep_sample rsinZero rngZero
        (Generator.new samplePhaRamp rngZero, 0)).trans rfl
    · show (Generator.frameStep rsinZero rngZero
          (Generator.new samplePhaRamp rngZero, 0)).1.volume = _
      exact (frameStep_volume rsinZero rngZero
        (Generator.new samplePhaRamp rngZero, 0)).trans rfl
    · show (Generator.frameStep rsinZero rngZero
          (Generator.new samplePhaRamp rngZero, 0)).1.playing_sample = _
      exact (frameStep_playing rsinZero rngZero
        (Generator.new samplePhaRamp rngZero, 0)).trans rfl
    · show (Generator.frameStep rsinZero rngZero
          (Generator.new samplePhaRamp rngZero, 0)).1.fphase = _
      exact h1.trans rfl
  have hfresh : (Generator.generate rsinZero rngZero
      (Generator.new samplePhaRamp rngZero) [0]).2 =
      [149993600139998040018199888000439999000001 /
        12800000000000000000000000000000000000000000000] := by
    norm_num [Generator.generate, Generator.generateSlots, Generator.generateFrame,
      Generator.frameAdvance, Generator.new, Generator.reset, Generator.repStep,
      Generator.arpStep, Generator.ssLoop, Generator.superStep, Generator.superCore,
      Generator.filterStep, Phaser.phase, Phaser.new, Phaser.writeIndex,
      Phaser.readIndex, Phaser.iphase, phaserBufferLen, Envelope.new, Envelope.reset,
      Envelope.advance, Envelope.volume, Envelope.current_stage_length, noiseIndex,
      ratTrunc, ratToUnsigned, PI, rsinZero, rngZero, samplePhaRamp, Sample.new,
      min_def, max_def]
    all_goals simp
    all_goals norm_num
  have hreset : (Generator.generate rsinZero rngZero
      (({ Generator.new samplePhaRamp rngZero with fphase := 1 } : Generator).reset
        false rngZero) [0]).2 =
      [139994300118998390014699909000369999100001 /
        12800000000000000000000000000000000000000000000] := by
    norm_num [Generator.generate, Generator.generateSlots, Generator.generateFrame,
      Generator.frameAdvance, Generator.new, Generator.reset, Generator.repStep,
      Generator.arpStep, Generator.ssLoop, Generator.superStep, Generator.superCore,
      Generator.filterStep, Phaser.phase, Phaser.new, Phaser.writeIndex,
      Phaser.readIndex, Phaser.iphase, phaserBufferLen, Envelope.new, Envelope.reset,
      Envelope.advance, Envelope.volume, Envelope.current_stage_length, noiseIndex,
      ratTrunc, ratToUnsigned, PI, rsinZero, rngZero, samplePhaRamp, Sample.new,
      min_def, max_def]
    all_goals simp
    all_goals norm_num
  refine ⟨h0, ?_, ?_⟩
  · exact h2
  · rw [hB, hreset, hfresh]
    simp only [ne_eq, List.cons.injEq, and_true]
    norm_num

set_option maxHeartbeats 4000000 in
/-- C3 counterexample: from a mid-run state with nonzero low-pass filter
memory (`fltp = 1/4`) and an envelope multiplier of 3/4 for the coming
frame, the source pipeline (filter and phaser on the raw sample, envelope
at accumulation time) outputs 3/8 for the frame while the spec's
envelope-first pipeline outputs 1/4, refuting the claimed ordering. -/
theorem c3_counterexample :
    (Generator.generateFrame rsinZero rngZero (genSpecCmp, 0)).2 ≠
      (Generator.generateFrameSpecC3 rsinZero rngZero (genSpecCmp, 0)).2 := by
  have hcode : (Generator.generateFrame rsinZero rngZero (genSpecCmp, 0)).2 = 3/8 := by
    norm_num [genSpecCmp, Generator.generateFrame, Generator.frameAdvance,
      Generator.repStep, Generator.arpStep, Generator.ssLoop, Generator.superStep,
      Generator.superCore, Generator.filterStep, Phaser.phase, Phaser.new,
      Phaser.writeIndex, Phaser.readIndex, Phaser.iphase, phaserBufferLen,
      Envelope.advance, Envelope.volume, Envelope.current_stage_length, noiseIndex,
      ratTrunc, ratToUnsigned, PI, rsinZero, rngZero, Sample.new, min_def, max_def]
  have hspec : (Generator.generateFrameSpecC3 rsinZero rngZero (genSpecCmp, 0)).2 =
      1/4 := by
    norm_num [genSpecCmp, Generator.generateFrameSpecC3, Generator.frameAdvance,
      Generator.repStep, Generator.arpStep, Generator.ssLoopSpecC3,
      Generator.superCoreSpecC3, Generator.filterStep, Phaser.phase, Phaser.new,
      Phaser.writeIndex, Phaser.readIndex, Phaser.iphase, phaserBufferLen,
      Envelope.advance, Envelope.volume, Envelope.current_stage_length, noiseIndex,
      ratTrunc, ratToUnsigned, PI, rsinZero, rngZero, Sample.new, min_def, max_def]
  rw [hcode, hspec]
  norm_num

/-- Witness for C10: concrete fractional phase, phaser state, supersample
state and fresh generator. -/
theorem c10_index_bounds_witness :
    noiseIndex (1/2) ≤ 31 ∧
    (Phaser.new.writeIndex < 1024 ∧ Phaser.new.readIndex 3 < 1024) ∧
    0 ≤ (Generator.superCore rsinZero rngZero 8
        (Generator.new Sample.new rngZero, 0)).1.1.phase ∧
    0 ≤ (Generator.frameStep rsinZero rngZero
        (Generator.new Sample.new rngZero, 0)).1.phase := by
  refine ⟨c10_index_bounds.1 (1/2) (by norm_num) (by norm_num),
    c10_index_bounds.2.1 Phaser.new 3,
    (c10_index_bounds.2.2.1 rsinZero rngZero 8 (Generator.new Sample.new rngZero, 0)
      (by norm_num) (by norm_num [Generator.new, Generator.reset])).1,
    c10_index_bounds.2.2.2.1 rsinZero rngZero (Generator.new Sample.new rngZero, 0)
      (by norm_num [Generator.new, Generator.reset])⟩

end Sfxr
